import Mathlib

/-!
Verification of the thingsbridge bulk-operation subsystem: a shallow embedding
of `src/thingsbridge/bulk_tools.py`, `src/thingsbridge/utils.py`,
`src/thingsbridge/applescript_builder.py` and the idempotency caches, with
theorems settling the specification's claims about batch results, validation,
idempotency, the fallback path and script sanitisation.

Strings are Lean `String`s; the Python string operations used by the source
(`strip`, `split`, `replace`, `lower`, `startswith`, f-string interpolation)
are reimplemented by structural recursion on the character list so that every
definition evaluates inside the kernel.
-/

namespace Thingsbridge

/-! ## Python string primitives -/

/-- Characters removed by Python `str.strip()` (ASCII whitespace). -/
def pyIsSpace (c : Char) : Bool :=
  c == ' ' || c == '\t' || c == '\n' || c == '\x0d' || c == '\x0b' || c == '\x0c'

/-- Drop leading characters satisfying `pyIsSpace`. -/
def pyDropSpace : List Char → List Char
  | [] => []
  | c :: rest => if pyIsSpace c then pyDropSpace rest else c :: rest

/-- Python `s.strip()`: remove ASCII whitespace from both ends. -/
def pyStrip (s : String) : String :=
  ⟨(pyDropSpace ((pyDropSpace s.data).reverse)).reverse⟩

/-- Helper for `pySplitChar`, working on the character list. -/
def pySplitCharAux (sep : Char) : List Char → List (List Char)
  | [] => [[]]
  | c :: rest =>
    if c = sep then [] :: pySplitCharAux sep rest
    else
      match pySplitCharAux sep rest with
      | hd :: tl => (c :: hd) :: tl
      | [] => [[c]]

/-- Python `s.split(sep)` for a one-character separator (the source only splits
on `","` and `"|"`). `"".split(sep) = [""]`. -/
def pySplitChar (s : String) (sep : Char) : List String :=
  (pySplitCharAux sep s.data).map (fun l => ⟨l⟩)

/-- Helper for `pyReplaceChar`. -/
def pyReplaceCharAux (old : Char) (new : List Char) : List Char → List Char
  | [] => []
  | c :: rest => (if c = old then new else [c]) ++ pyReplaceCharAux old new rest

/-- Python `s.replace(old, new)` for a one-character `old` (the source only
replaces `"` and `!`). -/
def pyReplaceChar (s : String) (old : Char) (new : String) : String :=
  ⟨pyReplaceCharAux old new.data s.data⟩

/-- ASCII lower-casing of one character (the source lower-cases only ASCII
keywords such as "someday", "area", "today"). -/
def pyLowerChar (c : Char) : Char :=
  if 65 ≤ c.toNat ∧ c.toNat ≤ 90 then Char.ofNat (c.toNat + 32) else c

/-- Python `s.lower()` (ASCII fragment). -/
def pyLower (s : String) : String :=
  ⟨s.data.map pyLowerChar⟩

/-- Python `s.startswith(pre)`. -/
def pyStartsWith (s pre : String) : Bool :=
  pre.data.isPrefixOf s.data

/-- The suffix of the list after the last occurrence of `sep`
(`none` when `sep` does not occur). -/
def pyAfterLastAux (sep : List Char) : List Char → Option (List Char)
  | [] => none
  | c :: rest =>
    match pyAfterLastAux sep rest with
    | some suf => some suf
    | none =>
      if sep.isPrefixOf (c :: rest) then some (List.drop sep.length (c :: rest))
      else none

/-- Python `s.split(sep)[-1]` when `"sep" in s`, i.e. the text after the last
occurrence of the (non-self-overlapping) separator; `none` when absent.
Used for `res.split("ID:")[-1]`. -/
def pyAfterLast (s sep : String) : Option String :=
  (pyAfterLastAux sep.data s.data).map (fun l => ⟨l⟩)

/-- Drop leading characters that belong to `set`. -/
def pyDropWhileIn (set : List Char) : List Char → List Char
  | [] => []
  | c :: rest => if set.contains c then pyDropWhileIn set rest else c :: rest

/-- Python `s.strip(chars)`: remove any of `set` from both ends.
Used for `.strip(") ")`. -/
def pyStripSet (s : String) (set : List Char) : String :=
  ⟨(pyDropWhileIn set ((pyDropWhileIn set s.data).reverse)).reverse⟩

/-- The decimal digit character for `n < 10`. -/
def digitChar (n : Nat) : Char := Char.ofNat (48 + n)

/-- Fuelled decimal rendering (fuel bounds the digit count). -/
def natToStrAux : Nat → Nat → List Char
  | 0, _ => []
  | fuel + 1, n =>
    if n < 10 then [digitChar n] else natToStrAux fuel (n / 10) ++ [digitChar (n % 10)]

/-- Decimal rendering of a natural number, as Python's f-string `{idx}` does. -/
def natToStr (n : Nat) : String := ⟨natToStrAux (n + 1) n⟩

/-- Python `str(x)` of an `Optional[str]` as an f-string embeds it:
`None` renders as the four characters `None`. -/
def optStr : Option String → String
  | none => "None"
  | some s => s

/-- Python truthiness of an `Optional[str]` value: `None` and `""` are falsy. -/
def truthy : Option String → Bool
  | none => false
  | some s => !s.data.isEmpty

/-- Python truthiness of an `Optional[List[str]]` value (the `tags` field):
`None` and the empty list are falsy. -/
def truthyList : Option (List String) → Bool
  | none => false
  | some l => !l.isEmpty

/-- `", ".join(parts)` and friends. -/
def joinSep (sep : String) : List String → String
  | [] => ""
  | [x] => x
  | x :: y :: rest => x ++ sep ++ joinSep sep (y :: rest)

/-! ## Dates (`utils._format_applescript_date`) -/

/-- Whether every character of the list is an ASCII digit. -/
def allDigits (l : List Char) : Bool :=
  l.all (fun c => 48 ≤ c.toNat ∧ c.toNat ≤ 57)

/-- Numeric value of an ASCII digit string (left fold). -/
def digitsToNat (l : List Char) : Nat :=
  l.foldl (fun acc c => acc * 10 + (c.toNat - 48)) 0

/-- Gregorian leap-year test, as `datetime` uses. -/
def isLeap (y : Nat) : Bool :=
  (y % 4 == 0 && y % 100 != 0) || y % 400 == 0

/-- Days in a month of a year. -/
def daysInMonth (y m : Nat) : Nat :=
  if m = 2 then (if isLeap y then 29 else 28)
  else if m = 4 ∨ m = 6 ∨ m = 9 ∨ m = 11 then 30
  else 31

/-- `datetime.strptime(s, "%Y-%m-%d")`: parse a calendar date, `none` on a
`ValueError`. Year is 1..9999, month 1..12, day bounded by the month length. -/
def parseYmd (s : String) : Option (Nat × Nat × Nat) :=
  match pySplitChar s (Char.ofNat 45) with
  | [ys, ms, ds] =>
    if allDigits ys.data ∧ allDigits ms.data ∧ allDigits ds.data
        ∧ !ys.data.isEmpty ∧ !ms.data.isEmpty ∧ !ds.data.isEmpty
        ∧ ys.data.length ≤ 4 ∧ ms.data.length ≤ 2 ∧ ds.data.length ≤ 2 then
      let y := digitsToNat ys.data
      let m := digitsToNat ms.data
      let d := digitsToNat ds.data
      if 1 ≤ y ∧ 1 ≤ m ∧ m ≤ 12 ∧ 1 ≤ d ∧ d ≤ daysInMonth y m then
        some (y, m, d)
      else none
    else none
  | _ => none

/-- English month name, as `strftime("%B")` prints it. -/
def monthName (m : Nat) : String :=
  match m with
  | 1 => "January" | 2 => "February" | 3 => "March" | 4 => "April"
  | 5 => "May" | 6 => "June" | 7 => "July" | 8 => "August"
  | 9 => "September" | 10 => "October" | 11 => "November" | _ => "December"

/-- Zero-padded two-digit rendering, as `strftime("%d")` prints the day. -/
def pad2 (n : Nat) : String :=
  if n < 10 then "0" ++ natToStr n else natToStr n

/-- `utils._format_applescript_date`: `YYYY-MM-DD` reformatted to
`"%B %d, %Y %H:%M:%S"` of midnight; `none` models the raised `ValueError`. -/
def format_applescript_date (date_str : String) : Option String :=
  (parseYmd date_str).map (fun ymd =>
    monthName ymd.2.1 ++ " " ++ pad2 ymd.2.2 ++ ", " ++ natToStr ymd.1 ++ " 00:00:00")

/-- `utils._validate_date_format`: `none` when the date parses, otherwise the
literal message. -/
def validate_date_format (date_str field_name : String) : Option String :=
  match format_applescript_date date_str with
  | some _ => none
  | none => some ("Invalid " ++ field_name ++ " format: " ++ date_str ++ ". Expected YYYY-MM-DD")

/-! ## `utils` validation helpers -/

/-- `utils._sanitize_applescript_string` (and the identical copy at the top of
`applescript_builder`): falsy input gives `""`, otherwise each `"` becomes `\"`. -/
def sanitize_applescript_string (text : String) : String :=
  if text.data.isEmpty then "" else pyReplaceChar text (Char.ofNat 34) "\\\""

/-- `utils._validate_destination_type`: the destination type must be area,
project or list (case-insensitively); otherwise the literal error message. -/
def validate_destination_type (dest_type : String) : Option String :=
  if pyLower dest_type = "area" ∨ pyLower dest_type = "project" ∨ pyLower dest_type = "list" then
    none
  else
    some ("Invalid destination type: " ++ dest_type ++ ". Use 'area', 'project', or 'list'")

/-- `utils._validate_batch`, the common validation of every `*_bulk` tool.
`none` stands for Python `None` (validation passed); the `items` argument is
`none` when the caller passed a non-list value. -/
def validate_batch {α : Type} (items : Option (List α)) (idempotency_key : String) :
    Option String :=
  match items with
  | none => some "`items` must be a list"
  | some l =>
    if l.length = 0 then some "`items` list cannot be empty"
    else if l.length > 1000 then some "Batch exceeds maximum of 1000 items"
    else if idempotency_key.data.isEmpty then some "`idempotency_key` is required"
    else none

/-! ## Per-item outcomes (`utils._build_result`) -/

/-- A per-item outcome dict: `{"index": i, "id": id}` on success or
`{"index": i, "error": {"msg": m}}` on failure. -/
inductive Outcome where
  | ok (index : Nat) (id : Option String)
  | err (index : Nat) (msg : String)
deriving Repr, DecidableEq

/-- The `index` key of an outcome. -/
def Outcome.index : Outcome → Nat
  | .ok i _ => i
  | .err i _ => i

/-- Whether the outcome carries an `error` key. -/
def Outcome.isErr : Outcome → Bool
  | .ok _ _ => false
  | .err _ _ => true

/-- The `msg` string of a failure outcome (`""` for a success outcome). -/
def Outcome.msg : Outcome → String
  | .ok _ _ => ""
  | .err _ m => m

/-- `utils._build_result`: note the Python truthiness test `if error:` — a
`None` or empty `error` string selects the success shape. -/
def build_result (index : Nat) (todo_id : Option String) (error : Option String) : Outcome :=
  match error with
  | some e => if e.data.isEmpty then Outcome.ok index todo_id else Outcome.err index e
  | none => Outcome.ok index todo_id

/-- `len([r for r in results if "error" not in r])`. -/
def countNoError (results : List Outcome) : Nat :=
  results.countP (fun r => r.isErr = false)

/-! ## JSON shapes (for claims about the exact dict layout) -/

/-- A small JSON model, enough to state the exact shape of the per-item
outcome dictionaries the source builds. -/
inductive Json where
  | null
  | str (s : String)
  | num (n : Nat)
  | obj (fields : List (String × Json))
  | arr (xs : List Json)

/-- The dictionary `utils._build_result` builds, rendered as JSON: the failure
shape nests the message under a single `msg` key. -/
def Outcome.toJson : Outcome → Json
  | .ok i id =>
    Json.obj [("index", Json.num i), ("id", match id with | none => Json.null | some s => Json.str s)]
  | .err i m =>
    Json.obj [("index", Json.num i), ("error", Json.obj [("msg", Json.str m)])]

/-! ## Batch results and the value a bulk tool returns -/

/-- The batch-result dict
`{"results", "batch_id", "processed", "succeeded", "failed"}`. -/
structure BatchResult where
  results : List Outcome
  batch_id : String
  processed : Nat
  succeeded : Nat
  failed : Nat
deriving Repr, DecidableEq

/-- The Python value a bulk tool hands back to its caller: a batch-result
dict, a `{"error": msg}` dict from validation, or — when the
`_handle_tool_errors` decorator catches an exception — a bare string. -/
inductive BulkReturn where
  | batch (b : BatchResult)
  | errorDict (msg : String)
  | str (s : String)
deriving Repr, DecidableEq

/-- Whether the returned value is a complete batch-result object. -/
def BulkReturn.isBatch : BulkReturn → Bool
  | .batch _ => true
  | _ => false

/-- `utils._handle_tool_errors`: the decorator around every bulk tool.  An
exception escaping the body is converted to the string
`"❌ Failed to <operation_name>: <message>"`; `Except.error` models the
escaping exception. -/
def handle_tool_errors (operation_name : String) : Except String BulkReturn → BulkReturn
  | .ok v => v
  | .error e => .str ("❌ Failed to " ++ operation_name ++ ": " ++ e)

/-! ## Item payload shapes -/

/-- A creation payload (`create_todo_bulk` item).  Fields are `Option` since
Python `item.get(...)` yields `None` when absent; the `title`/`notes`/`when`
call sites treat a present-but-`None` value the same as a missing key. -/
structure CreateItem where
  title : Option String := none
  notes : Option String := none
  when : Option String := none
  deadline : Option String := none
  tags : Option (List String) := none
  list_name : Option String := none
  client_id : Option String := none
deriving Repr, DecidableEq

/-- A move payload (`move_todo_bulk` item). -/
structure MoveItem where
  todo_id : Option String := none
  destination_type : Option String := none
  destination_name : Option String := none
deriving Repr, DecidableEq

/-- An update payload (`update_todo_bulk` item).  `notes` is doubly optional
because the source distinguishes `"notes" in itm` (outer) from the value
being `None` (inner). -/
structure UpdateItem where
  todo_id : Option String := none
  title : Option String := none
  notes : Option (Option String) := none
  when : Option String := none
  deadline : Option String := none
deriving Repr, DecidableEq

/-- The processed move triple appended by `move_todo_bulk`'s validation loop. -/
structure MoveProcessed where
  todo_id : String
  destination_type : String
  destination_name : String
deriving Repr, DecidableEq

/-- The processed update dict built by `update_todo_bulk`'s validation loop:
`todo_id` always present, `title` only when truthy, `notes` copied with its
key-presence, `deadline` only when truthy (already reformatted). -/
structure UpdateProcessed where
  todo_id : String
  title : Option String := none
  notes : Option (Option String) := none
  deadline : Option String := none
deriving Repr, DecidableEq

/-- Python `enumerate` with a start index. -/
def enumIdx {α : Type} (start : Nat) : List α → List (Nat × α)
  | [] => []
  | x :: rest => (start, x) :: enumIdx (start + 1) rest

/-! ## `applescript_builder`: batch script construction

AppleScript braces inside the generated text are written `\x7b`/`\x7d`.
The `"\\n            "` join separator is the literal backslash-`n` (two
characters) from the Python source, not a newline. -/

/-- The `properties` clause of one creation command:
name, then optional notes, due date and tag names, comma-joined. -/
def creationProperties (item : CreateItem) : String :=
  let title := sanitize_applescript_string (item.title.getD "")
  let notes := sanitize_applescript_string (item.notes.getD "")
  let p1 := ["name:\"" ++ title ++ "\""]
  let p2 := if notes.data.isEmpty then p1 else p1 ++ ["notes:\"" ++ notes ++ "\""]
  let p3 :=
    if truthy item.deadline then
      p2 ++ ["due date:(date \"" ++ item.deadline.getD "" ++ "\")"]
    else p2
  let p4 :=
    if truthyList item.tags then
      p3 ++ ["tag names:\x7b"
        ++ joinSep ", " ((item.tags.getD []).map
            (fun t => "\"" ++ sanitize_applescript_string t ++ "\""))
        ++ "\x7d"]
    else p3
  joinSep ", " p4

/-- The target list of one creation command: `"Someday"` when the payload
asks for it, else the payload's `list_name`. -/
def createTargetList (item : CreateItem) : Option String :=
  if item.list_name = some "Someday" ∨ pyLower (item.when.getD "") = "someday" then
    some "Someday"
  else item.list_name

/-- One item's command block inside the batch creation script. -/
def createCommand (i : Nat) (item : CreateItem) : String :=
  let propertiesStr := creationProperties item
  let iS := natToStr i
  let targetList := createTargetList item
  if truthy targetList then
    let safeList := sanitize_applescript_string (targetList.getD "")
    "\n            set targetList" ++ iS ++ " to list \"" ++ safeList
      ++ "\"\n            set newToDo" ++ iS ++ " to make new to do at targetList" ++ iS
      ++ " with properties \x7b" ++ propertiesStr
      ++ "\x7d\n            set todoId" ++ iS ++ " to id of newToDo" ++ iS
  else
    "\n            set newToDo" ++ iS ++ " to make new to do with properties \x7b"
      ++ propertiesStr
      ++ "\x7d\n            set todoId" ++ iS ++ " to id of newToDo" ++ iS

/-- `applescript_builder.build_batch_todo_creation_script`: one script that
creates all todos and returns the comma-joined ids. -/
def build_batch_todo_creation_script (items : List CreateItem) : String :=
  let todo_commands := (enumIdx 0 items).map (fun p => createCommand p.1 p.2)
  let result_list :=
    "\x7b" ++ joinSep ", " ((enumIdx 0 items).map (fun p => "todoId" ++ natToStr p.1)) ++ "\x7d"
  let commands_str := joinSep "\\n            " todo_commands
  "\n    tell application \"Things3\"\n        " ++ commands_str
    ++ "\n        \n        set resultIds to " ++ result_list
    ++ "\n        set resultText to \"\"\n        repeat with i from 1 to count of resultIds"
    ++ "\n            set resultText to resultText & item i of resultIds"
    ++ "\n            if i < count of resultIds then set resultText to resultText & \",\""
    ++ "\n        end repeat\n        return resultText\n    end tell\n    "

/-- The shared tail of the name-returning batch scripts (completion, update,
move and the modelled cancellation/delete): collect `resultNames` and return
them pipe-joined.  Each source builder repeats this template verbatim. -/
def batchNamesTemplate (commands_str result_list : String) : String :=
  "\n    tell application \"Things3\"\n        " ++ commands_str
    ++ "\n        \n        set resultNames to " ++ result_list
    ++ "\n        set resultText to \"\"\n        repeat with i from 1 to count of resultNames"
    ++ "\n            set resultText to resultText & item i of resultNames"
    ++ "\n            if i < count of resultNames then set resultText to resultText & \"|\""
    ++ "\n        end repeat\n        return resultText\n    end tell\n    "

/-- One item's command block inside the batch completion script. -/
def completionCommand (i : Nat) (todo_id : String) : String :=
  let safeId := sanitize_applescript_string todo_id
  let iS := natToStr i
  "\n        set targetToDo" ++ iS ++ " to to do id \"" ++ safeId
    ++ "\"\n        set todoName" ++ iS ++ " to name of targetToDo" ++ iS
    ++ "\n        set status of targetToDo" ++ iS ++ " to completed"

/-- `applescript_builder.build_batch_completion_script`. -/
def build_batch_completion_script (todo_ids : List String) : String :=
  batchNamesTemplate
    (joinSep "\\n            " ((enumIdx 0 todo_ids).map (fun p => completionCommand p.1 p.2)))
    ("\x7b" ++ joinSep ", " ((enumIdx 0 todo_ids).map (fun p => "todoName" ++ natToStr p.1)) ++ "\x7d")

/-- One item's statements inside the batch update script. -/
def updateCommands (i : Nat) (u : UpdateProcessed) : List String :=
  let iS := natToStr i
  let c1 := ["set targetToDo" ++ iS ++ " to to do id \""
    ++ sanitize_applescript_string u.todo_id ++ "\""]
  let c2 :=
    if truthy u.title then
      c1 ++ ["set name of targetToDo" ++ iS ++ " to \""
        ++ sanitize_applescript_string (u.title.getD "") ++ "\""]
    else c1
  let c3 :=
    match u.notes with
    | some (some s) =>
      c2 ++ ["set notes of targetToDo" ++ iS ++ " to \""
        ++ pyReplaceChar (sanitize_applescript_string s) (Char.ofNat 33) "\\\\!" ++ "\""]
    | _ => c2
  let c4 :=
    if truthy u.deadline then
      c3 ++ ["set due date of targetToDo" ++ iS ++ " to (date \"" ++ u.deadline.getD "" ++ "\")"]
    else c3
  c4 ++ ["set todoName" ++ iS ++ " to name of targetToDo" ++ iS]

/-- `applescript_builder.build_batch_update_script`. -/
def build_batch_update_script (updates : List UpdateProcessed) : String :=
  batchNamesTemplate
    (joinSep "\\n            " (((enumIdx 0 updates).map (fun p => updateCommands p.1 p.2)).flatten))
    ("\x7b" ++ joinSep ", " ((enumIdx 0 updates).map (fun p => "todoName" ++ natToStr p.1)) ++ "\x7d")

/-- One item's statements inside the batch move script. -/
def moveCommands (i : Nat) (m : MoveProcessed) : List String :=
  let iS := natToStr i
  let tid := sanitize_applescript_string m.todo_id
  let dt := pyLower m.destination_type
  let dn := sanitize_applescript_string m.destination_name
  ["set targetToDo" ++ iS ++ " to to do id \"" ++ tid ++ "\""]
    ++ (if dt = "area" then
          ["set targetArea" ++ iS ++ " to area \"" ++ dn ++ "\"",
           "move targetToDo" ++ iS ++ " to targetArea" ++ iS]
        else if dt = "project" then
          ["set targetProject" ++ iS ++ " to project \"" ++ dn ++ "\"",
           "set project of targetToDo" ++ iS ++ " to targetProject" ++ iS]
        else if dt = "list" then
          ["set targetList" ++ iS ++ " to list \"" ++ dn ++ "\"",
           "move targetToDo" ++ iS ++ " to targetList" ++ iS]
        else [])
    ++ ["set todoName" ++ iS ++ " to name of targetToDo" ++ iS]

/-- `applescript_builder.build_batch_move_script`. -/
def build_batch_move_script (moves : List MoveProcessed) : String :=
  batchNamesTemplate
    (joinSep "\\n            " (((enumIdx 0 moves).map (fun p => moveCommands p.1 p.2)).flatten))
    ("\x7b" ++ joinSep ", " ((enumIdx 0 moves).map (fun p => "todoName" ++ natToStr p.1)) ++ "\x7d")

/-- Modelled from the spec: `build_batch_cancellation_script` is imported by
`bulk_tools` but absent from `src/thingsbridge/applescript_builder.py`.
Per spec §4.1/§6 it produces one script performing all cancellations and
returning pipe-joined names, mirroring `build_batch_completion_script`. -/
def cancellationCommand (i : Nat) (todo_id : String) : String :=
  let safeId := sanitize_applescript_string todo_id
  let iS := natToStr i
  "\n        set targetToDo" ++ iS ++ " to to do id \"" ++ safeId
    ++ "\"\n        set todoName" ++ iS ++ " to name of targetToDo" ++ iS
    ++ "\n        set status of targetToDo" ++ iS ++ " to canceled"

/-- Modelled from the spec: see `cancellationCommand`. -/
def build_batch_cancellation_script (todo_ids : List String) : String :=
  batchNamesTemplate
    (joinSep "\\n            " ((enumIdx 0 todo_ids).map (fun p => cancellationCommand p.1 p.2)))
    ("\x7b" ++ joinSep ", " ((enumIdx 0 todo_ids).map (fun p => "todoName" ++ natToStr p.1)) ++ "\x7d")

/-- Modelled from the spec: `build_batch_delete_script` is imported by
`bulk_tools` but absent from `src/thingsbridge/applescript_builder.py`.
Per spec §3/§4.1 deletion moves each todo to the trash list and the script
returns pipe-joined names. -/
def deleteCommand (i : Nat) (todo_id : String) : String :=
  let safeId := sanitize_applescript_string todo_id
  let iS := natToStr i
  "\n        set targetToDo" ++ iS ++ " to to do id \"" ++ safeId
    ++ "\"\n        set todoName" ++ iS ++ " to name of targetToDo" ++ iS
    ++ "\n        move targetToDo" ++ iS ++ " to list \"Trash\""

/-- Modelled from the spec: see `deleteCommand`. -/
def build_batch_delete_script (todo_ids : List String) : String :=
  batchNamesTemplate
    (joinSep "\\n            " ((enumIdx 0 todo_ids).map (fun p => deleteCommand p.1 p.2)))
    ("\x7b" ++ joinSep ", " ((enumIdx 0 todo_ids).map (fun p => "todoName" ++ natToStr p.1)) ++ "\x7d")

/-- `applescript_builder.build_tag_addition_script`.  Note the source
sanitises `tag_name` into `safe_tag` but interpolates `todo_id` directly. -/
def build_tag_addition_script (todo_id tag_name : String) : String :=
  let safe_tag := sanitize_applescript_string tag_name
  "\n    tell application \"Things3\"\n        set targetToDo to to do id \"" ++ todo_id
    ++ "\"\n        make new tag at targetToDo with properties \x7bname:\"" ++ safe_tag
    ++ "\"\x7d\n    end tell\n    "

/-- `applescript_builder.build_move_to_list_script`. -/
def build_move_to_list_script (todo_id list_name : String) : String :=
  let safe_id := sanitize_applescript_string todo_id
  let safe_list := sanitize_applescript_string list_name
  "\n    tell application \"Things3\"\n        move to do id \"" ++ safe_id
    ++ "\" to list \"" ++ safe_list ++ "\"\n    end tell\n    "

/-- The script `utils._schedule_item` runs for `when == "today"`. -/
def scheduleTodayScript (item_type item_id : String) : String :=
  "\n            tell application \"Things3\"\n                schedule " ++ item_type
    ++ " id \"" ++ item_id ++ "\" for (current date)\n            end tell\n            "

/-- The script `utils._schedule_item` runs for `when == "tomorrow"`. -/
def scheduleTomorrowScript (item_type item_id : String) : String :=
  "\n            tell application \"Things3\"\n                schedule " ++ item_type
    ++ " id \"" ++ item_id ++ "\" for (current date) + 1 * days\n            end tell\n            "

/-- The script `utils._schedule_item` runs for a concrete date. -/
def scheduleDateScript (item_type item_id applescript_date : String) : String :=
  "\n                tell application \"Things3\"\n                    schedule " ++ item_type
    ++ " id \"" ++ item_id ++ "\" for (date \"" ++ applescript_date
    ++ "\")\n                end tell\n                "

/-- The host scripts `utils._schedule_item` executes: one script chosen by
`when` (none for an unparsable date — the function returns `False` without a
host call).  The execution's outcome is only logged, never propagated. -/
def schedule_item_calls (item_id whenV item_type : String) : List String :=
  let wl := pyLower whenV
  if wl = "today" then [scheduleTodayScript item_type item_id]
  else if wl = "tomorrow" then [scheduleTomorrowScript item_type item_id]
  else
    match format_applescript_date whenV with
    | some d => [scheduleDateScript item_type item_id d]
    | none => []

/-! ## Dictionaries and the idempotency caches -/

/-- Python dict lookup (`d.get(k)`) over an insertion-ordered association
list. -/
def dictGet {β : Type} (m : List (String × β)) (k : String) : Option β :=
  match m with
  | [] => none
  | (k0, v) :: rest => if k0 = k then some v else dictGet rest k

/-- Python dict assignment (`d[k] = v`): overwrite in place or append. -/
def dictSet {β : Type} (m : List (String × β)) (k : String) (v : β) : List (String × β) :=
  match m with
  | [] => [(k, v)]
  | (k0, v0) :: rest => if k0 = k then (k, v) :: rest else (k0, v0) :: dictSet rest k v

/-- One entry of the create cache's client-id side map:
`{"id": res.get("id"), "error": res.get("error")}` — `error` records the
failure outcome's `msg` (the nested dict's single field), `none` otherwise. -/
structure ClientEntry where
  id : Option String
  error : Option String
deriving Repr, DecidableEq

/-- A create-cache value: `{"batch": batch_result, "clients": client_map}`. -/
structure CacheEntry where
  batch : BatchResult
  clients : List (String × ClientEntry)
deriving Repr, DecidableEq

/-- Modelled from the spec: the backing file of the durable create-operation
cache.  `ShelveCache` / `create_todo_bulk_cache` is imported by `bulk_tools`
and exercised by `tests/test_persistent_bulk_cache.py` but absent from
`src/thingsbridge/cache.py`; per spec §4.2/§6 it is a keyed store backed by a
file, supporting independent open/set/get/close and surviving restart with
prior entries intact. -/
structure ShelveStore where
  entries : List (String × CacheEntry)
deriving Repr, DecidableEq

/-- Modelled from the spec: an open handle of the durable create cache (see
`ShelveStore`). -/
structure ShelveCache where
  entries : List (String × CacheEntry)
deriving Repr, DecidableEq

/-- Modelled from the spec: opening a `ShelveCache` against a backing file
loads its entries. -/
def ShelveCache.openStore (f : ShelveStore) : ShelveCache := ⟨f.entries⟩

/-- Modelled from the spec: `get(key)` returns the stored value or nothing. -/
def ShelveCache.get (c : ShelveCache) (k : String) : Option CacheEntry :=
  dictGet c.entries k

/-- Modelled from the spec: `set(key, value)` stores, silently overwriting. -/
def ShelveCache.set (c : ShelveCache) (k : String) (v : CacheEntry) : ShelveCache :=
  ⟨dictSet c.entries k v⟩

/-- Modelled from the spec: `close()` flushes the entries to the backing
file and releases the handle. -/
def ShelveCache.close (c : ShelveCache) : ShelveStore := ⟨c.entries⟩

/-- One family's map inside `bulk_tools._GENERIC_BULK_CACHE` (the in-memory
dict keyed by idempotency key; the five families have independent maps). -/
def GenericCache : Type := List (String × BatchResult)

instance : DecidableEq GenericCache := by
  unfold GenericCache
  infer_instance

/-! ## The host boundary -/

/-- Result of one AppleScript execution (`applescript.AppleScriptResult`):
success flag, stdout, optional stderr (the exit code is never consulted by
the bulk tools). -/
structure AppleScriptResult where
  success : Bool
  output : String
  error : Option String
deriving Repr, DecidableEq

/-- One interaction with the automation host: the `ensure_running` precondition
check, or the execution of a script text. -/
inductive HostCall where
  | ensure
  | exec (script : String)
deriving Repr, DecidableEq

/-- A deterministic model of the host boundary: whether
`executor.ensure_things_running()` succeeds (with its error text otherwise),
and the `AppleScriptResult` of executing any script. -/
structure Host where
  ensureOk : Bool
  ensureErr : Option String
  run : String → AppleScriptResult

/-- Result of a bulk tool's body before the decorator: a returned value or an
escaping exception's message, the cache state, and the host calls made. -/
structure InnerOut (σ : Type) where
  res : Except String BulkReturn
  cache : σ
  trace : List HostCall

/-- Result of a decorated bulk tool: the Python return value, the cache
state, and the host calls made. -/
structure OpOut (σ : Type) where
  val : BulkReturn
  cache : σ
  trace : List HostCall

/-! ## Result-building loops shared by the bulk tools -/

/-- `result.output.strip().split(",") if result.output.strip() else []`. -/
def parseCreateTokens (output : String) : List String :=
  if (pyStrip output).data.isEmpty then [] else pySplitChar (pyStrip output) (Char.ofNat 44)

/-- `result.output.strip().split("|") if result.output.strip() else []`. -/
def parseNameTokens (output : String) : List String :=
  if (pyStrip output).data.isEmpty then [] else pySplitChar (pyStrip output) (Char.ofNat 124)

/-- The result loop of `create_todo_bulk`: one outcome per parsed token.
Note: unlike the other five tools there is no bound by the item count and no
backfill loop. -/
def createResultsFrom (start : Nat) : List String → List Outcome
  | [] => []
  | t :: rest =>
    (if (pyStrip t).data.isEmpty then build_result start none (some "Failed to create todo")
     else build_result start (some (pyStrip t)) none)
      :: createResultsFrom (start + 1) rest

/-- The token-alignment loop shared by the five name-returning bulk tools:
for each token at position `idx`, while `idx` is within the item list, build
a success outcome carrying `ids[idx]` for a non-blank token, else the
failure message. -/
def zipNameResults (ids : List (Option String)) (failMsg : String) :
    Nat → List String → List Outcome
  | _, [] => []
  | idx, nm :: rest =>
    if idx < ids.length then
      (if (pyStrip nm).data.isEmpty then build_result idx none (some failMsg)
       else build_result idx (ids.getD idx none) none)
        :: zipNameResults ids failMsg (idx + 1) rest
    else zipNameResults ids failMsg (idx + 1) rest

/-- The appendix of the `while len(results) < len(items)` backfill loop:
starting at index `k`, append `fuel` failure outcomes with consecutive
indices. -/
def backfillAux (msg : String) : Nat → Nat → List Outcome
  | _, 0 => []
  | k, fuel + 1 => build_result k none (some msg) :: backfillAux msg (k + 1) fuel

/-- The `while len(results) < len(items)` backfill loop of the five
name-returning bulk tools: each iteration appends
`_build_result(len(results), error=msg)` until `n` outcomes exist. -/
def backfill (results : List Outcome) (n : Nat) (msg : String) : List Outcome :=
  results ++ backfillAux msg results.length (n - results.length)

/-! ## `create_todo_bulk` -/

/-- The validation/preparation loop of `create_todo_bulk`: each item needs a
truthy `title`; a truthy `deadline` is validated and reformatted.  The first
failure aborts the call with the indexed message. -/
def createProcessItems : Nat → List CreateItem → Except String (List CreateItem)
  | _, [] => .ok []
  | idx, item :: rest =>
    if truthy item.title = false then
      .error ("Item " ++ natToStr idx ++ ": title is required")
    else if truthy item.deadline then
      match validate_date_format (item.deadline.getD "") "deadline" with
      | some e => .error ("Item " ++ natToStr idx ++ ": " ++ e)
      | none =>
        (createProcessItems (idx + 1) rest).map
          (fun ps => { item with deadline := format_applescript_date (item.deadline.getD "") } :: ps)
    else
      (createProcessItems (idx + 1) rest).map (fun ps => item :: ps)

/-- The scheduling loop of `create_todo_bulk`: the scripts executed for items
with a truthy non-"someday" `when` whose index has a non-blank token.  Each
execution's outcome is logged and discarded (`_schedule_item` catches
everything), so only the script list matters. -/
def createSchedCallsFrom (tokens : List String) : Nat → List CreateItem → List String
  | _, [] => []
  | idx, item :: rest =>
    (if truthy item.when ∧ pyLower (item.when.getD "") ≠ "someday" ∧ idx < tokens.length then
      (let tid := pyStrip (tokens.getD idx "")
       if tid.data.isEmpty then [] else schedule_item_calls tid (item.when.getD "") "to do")
     else [])
      ++ createSchedCallsFrom tokens (idx + 1) rest

/-- The tag loop of `create_todo_bulk`: one `build_tag_addition_script`
execution per tag, for items with truthy tags whose index has a non-blank
token.  The caller pre-escapes each tag (`tag.replace('"', '\\"')`) before
the builder escapes it again; failures are logged and discarded. -/
def createTagCallsFrom (tokens : List String) : Nat → List CreateItem → List String
  | _, [] => []
  | idx, item :: rest =>
    (if truthyList item.tags ∧ idx < tokens.length then
      (let tid := pyStrip (tokens.getD idx "")
       if tid.data.isEmpty then []
       else (item.tags.getD []).map
         (fun tag => build_tag_addition_script tid (pyReplaceChar tag (Char.ofNat 34) "\\\"")))
     else [])
      ++ createTagCallsFrom tokens (idx + 1) rest

/-- The client-id entry built from one outcome:
`{"id": res.get("id"), "error": res.get("error")}`. -/
def buildClientEntry : Outcome → ClientEntry
  | .ok _ id => ⟨id, none⟩
  | .err _ m => ⟨none, some m⟩

/-- Forward fold of `for itm, res in zip(items, results)` populating the
client map for truthy `client_id` fields. -/
def buildClientMapAux (acc : List (String × ClientEntry)) :
    List (CreateItem × Outcome) → List (String × ClientEntry)
  | [] => acc
  | (itm, res) :: rest =>
    if truthy itm.client_id then
      buildClientMapAux (dictSet acc (itm.client_id.getD "") (buildClientEntry res)) rest
    else buildClientMapAux acc rest

/-- The client map stored next to a create batch result. -/
def buildClientMap (items : List CreateItem) (results : List Outcome) :
    List (String × ClientEntry) :=
  buildClientMapAux [] (items.zip results)

/-- The body of `bulk_tools.create_todo_bulk` (inside the decorator):
cache check, validation, `ensure_running`, native batch execution, token
parsing, secondary scheduling/tag steps, counting and the cache write.
`Except.error` carries an escaping `ThingsError`'s message. -/
def create_todo_bulk_inner (h : Host) (cache : ShelveCache) (bid idempotency_key : String)
    (items : Option (List CreateItem)) : InnerOut ShelveCache :=
  match ShelveCache.get cache idempotency_key with
  | some entry => ⟨.ok (.batch entry.batch), cache, []⟩
  | none =>
    match validate_batch items idempotency_key with
    | some e => ⟨.ok (.errorDict e), cache, []⟩
    | none =>
      let itemsL := items.getD []
      match createProcessItems 0 itemsL with
      | .error e => ⟨.ok (.errorDict e), cache, []⟩
      | .ok processed_items =>
        if h.ensureOk = false then
          ⟨.error ("Failed to launch Things 3: " ++ optStr h.ensureErr), cache, [.ensure]⟩
        else
          let script := build_batch_todo_creation_script processed_items
          let result : AppleScriptResult := h.run script
          if result.success = false then
            ⟨.error ("Batch creation failed: " ++ optStr result.error), cache,
              [.ensure, .exec script]⟩
          else
            let todo_ids := parseCreateTokens result.output
            let results := createResultsFrom 0 todo_ids
            let schedCalls := createSchedCallsFrom todo_ids 0 processed_items
            let tagCalls := createTagCallsFrom todo_ids 0 processed_items
            let succeeded := countNoError results
            let failed := results.length - succeeded
            let batch_result : BatchResult := ⟨results, bid, itemsL.length, succeeded, failed⟩
            let cache2 := ShelveCache.set cache idempotency_key
              ⟨batch_result, buildClientMap itemsL results⟩
            ⟨.ok (.batch batch_result), cache2,
              [.ensure, .exec script] ++ (schedCalls ++ tagCalls).map HostCall.exec⟩

/-- `bulk_tools.create_todo_bulk`, decorated with
`@_handle_tool_errors("create todo bulk")`. -/
def create_todo_bulk (h : Host) (cache : ShelveCache) (bid idempotency_key : String)
    (items : Option (List CreateItem)) : OpOut ShelveCache :=
  let inner := create_todo_bulk_inner h cache bid idempotency_key items
  ⟨handle_tool_errors "create todo bulk" inner.res, inner.cache, inner.trace⟩

/-! ## `complete_todo_bulk`, `cancel_todo_bulk`, `delete_todo_bulk` -/

/-- The per-item id check of the complete/cancel/delete bulk tools
(`not todo_id or not isinstance(todo_id, str) or not todo_id.strip()`). -/
def firstEmptyIdError : Nat → List String → Option String
  | _, [] => none
  | idx, tid :: rest =>
    if (pyStrip tid).data.isEmpty then
      some ("Item " ++ natToStr idx ++ ": todo_id is required and cannot be empty")
    else firstEmptyIdError (idx + 1) rest

/-- Common body of `complete_todo_bulk`, `cancel_todo_bulk` and
`delete_todo_bulk`, which differ only in the script builder, the per-item
failure message and the `ThingsError` prefix (the three source functions are
line-for-line identical otherwise). -/
def idListBulkInner (buildScript : List String → String) (failMsg raisePrefix : String)
    (h : Host) (gc : GenericCache) (bid idempotency_key : String)
    (items : Option (List String)) : InnerOut GenericCache :=
  match dictGet gc idempotency_key with
  | some b => ⟨.ok (.batch b), gc, []⟩
  | none =>
    match items with
    | none => ⟨.ok (.errorDict "items must be list of todo IDs"), gc, []⟩
    | some l =>
      match validate_batch (some l) idempotency_key with
      | some e => ⟨.ok (.errorDict e), gc, []⟩
      | none =>
        match firstEmptyIdError 0 l with
        | some e => ⟨.ok (.errorDict e), gc, []⟩
        | none =>
          if h.ensureOk = false then
            ⟨.error ("Failed to launch Things 3: " ++ optStr h.ensureErr), gc, [.ensure]⟩
          else
            let script := buildScript l
            let result : AppleScriptResult := h.run script
            if result.success = false then
              ⟨.error (raisePrefix ++ ": " ++ optStr result.error), gc, [.ensure, .exec script]⟩
            else
              let todo_names := parseNameTokens result.output
              let res0 := zipNameResults (l.map some) failMsg 0 todo_names
              let results := backfill res0 l.length failMsg
              let succeeded := countNoError results
              let failed := results.length - succeeded
              let b : BatchResult := ⟨results, bid, l.length, succeeded, failed⟩
              ⟨.ok (.batch b), dictSet gc idempotency_key b, [.ensure, .exec script]⟩

/-- `bulk_tools.complete_todo_bulk`. -/
def complete_todo_bulk (h : Host) (gc : GenericCache) (bid idempotency_key : String)
    (items : Option (List String)) : OpOut GenericCache :=
  let inner := idListBulkInner build_batch_completion_script "Failed to complete todo"
    "Batch completion failed" h gc bid idempotency_key items
  ⟨handle_tool_errors "complete todo bulk" inner.res, inner.cache, inner.trace⟩

/-- `bulk_tools.cancel_todo_bulk`. -/
def cancel_todo_bulk (h : Host) (gc : GenericCache) (bid idempotency_key : String)
    (items : Option (List String)) : OpOut GenericCache :=
  let inner := idListBulkInner build_batch_cancellation_script "Failed to cancel todo"
    "Batch cancel failed" h gc bid idempotency_key items
  ⟨handle_tool_errors "cancel todo bulk" inner.res, inner.cache, inner.trace⟩

/-- `bulk_tools.delete_todo_bulk`. -/
def delete_todo_bulk (h : Host) (gc : GenericCache) (bid idempotency_key : String)
    (items : Option (List String)) : OpOut GenericCache :=
  let inner := idListBulkInner build_batch_delete_script "Failed to delete todo"
    "Batch delete failed" h gc bid idempotency_key items
  ⟨handle_tool_errors "delete todo bulk" inner.res, inner.cache, inner.trace⟩

/-! ## `move_todo_bulk` -/

/-- The validation loop of `move_todo_bulk`. -/
def moveProcessItems : Nat → List MoveItem → Except String (List MoveProcessed)
  | _, [] => .ok []
  | idx, itm :: rest =>
    if truthy itm.todo_id = false then
      .error ("Item " ++ natToStr idx ++ ": todo_id is required")
    else if truthy itm.destination_type = false ∨ truthy itm.destination_name = false then
      .error ("Item " ++ natToStr idx ++ ": destination_type and destination_name are required")
    else
      match validate_destination_type (itm.destination_type.getD "") with
      | some e => .error ("Item " ++ natToStr idx ++ ": " ++ e)
      | none =>
        (moveProcessItems (idx + 1) rest).map
          (fun ps =>
            ⟨itm.todo_id.getD "", itm.destination_type.getD "", itm.destination_name.getD ""⟩ :: ps)

/-- The body of `bulk_tools.move_todo_bulk`. -/
def move_todo_bulk_inner (h : Host) (gc : GenericCache) (bid idempotency_key : String)
    (items : Option (List MoveItem)) : InnerOut GenericCache :=
  match dictGet gc idempotency_key with
  | some b => ⟨.ok (.batch b), gc, []⟩
  | none =>
    match validate_batch items idempotency_key with
    | some e => ⟨.ok (.errorDict e), gc, []⟩
    | none =>
      let itemsL := items.getD []
      match moveProcessItems 0 itemsL with
      | .error e => ⟨.ok (.errorDict e), gc, []⟩
      | .ok processed =>
        if h.ensureOk = false then
          ⟨.error ("Failed to launch Things 3: " ++ optStr h.ensureErr), gc, [.ensure]⟩
        else
          let script := build_batch_move_script processed
          let result : AppleScriptResult := h.run script
          if result.success = false then
            ⟨.error ("Batch move failed: " ++ optStr result.error), gc, [.ensure, .exec script]⟩
          else
            let todo_names := parseNameTokens result.output
            let res0 := zipNameResults (itemsL.map (fun itm => itm.todo_id))
              "Failed to move todo" 0 todo_names
            let results := backfill res0 itemsL.length "Failed to move todo"
            let succeeded := countNoError results
            let failed := results.length - succeeded
            let b : BatchResult := ⟨results, bid, itemsL.length, succeeded, failed⟩
            ⟨.ok (.batch b), dictSet gc idempotency_key b, [.ensure, .exec script]⟩

/-- `bulk_tools.move_todo_bulk`. -/
def move_todo_bulk (h : Host) (gc : GenericCache) (bid idempotency_key : String)
    (items : Option (List MoveItem)) : OpOut GenericCache :=
  let inner := move_todo_bulk_inner h gc bid idempotency_key items
  ⟨handle_tool_errors "move todo bulk" inner.res, inner.cache, inner.trace⟩

/-! ## `update_todo_bulk` -/

/-- The validation loop of `update_todo_bulk`. -/
def updateProcessItems : Nat → List UpdateItem → Except String (List UpdateProcessed)
  | _, [] => .ok []
  | idx, itm :: rest =>
    if truthy itm.todo_id = false then
      .error ("Item " ++ natToStr idx ++ ": todo_id is required")
    else
      let base : UpdateProcessed :=
        ⟨itm.todo_id.getD "", if truthy itm.title then itm.title else none, itm.notes, none⟩
      if truthy itm.deadline then
        match validate_date_format (itm.deadline.getD "") "deadline" with
        | some e => .error ("Item " ++ natToStr idx ++ ": " ++ e)
        | none =>
          (updateProcessItems (idx + 1) rest).map
            (fun ps =>
              { base with deadline := format_applescript_date (itm.deadline.getD "") } :: ps)
      else (updateProcessItems (idx + 1) rest).map (fun ps => base :: ps)

/-- The scheduling / move-to-Someday loop of `update_todo_bulk`, run over the
original items after the primary batch; each execution's outcome is logged
and discarded.  (Python would render a missing `todo_id` as `""` in the
move script — the builder sanitises falsy input to `""` — and as `"None"` in
the schedule script's f-string; validation guarantees it is present here.) -/
def updateSecondaryCalls : List UpdateItem → List String
  | [] => []
  | itm :: rest =>
    (if truthy itm.when then
      (if pyLower (itm.when.getD "") = "someday" then
        [build_move_to_list_script (itm.todo_id.getD "") "Someday"]
       else schedule_item_calls (optStr itm.todo_id) (itm.when.getD "") "to do")
     else [])
      ++ updateSecondaryCalls rest

/-- The body of `bulk_tools.update_todo_bulk`. -/
def update_todo_bulk_inner (h : Host) (gc : GenericCache) (bid idempotency_key : String)
    (items : Option (List UpdateItem)) : InnerOut GenericCache :=
  match dictGet gc idempotency_key with
  | some b => ⟨.ok (.batch b), gc, []⟩
  | none =>
    match validate_batch items idempotency_key with
    | some e => ⟨.ok (.errorDict e), gc, []⟩
    | none =>
      let itemsL := items.getD []
      match updateProcessItems 0 itemsL with
      | .error e => ⟨.ok (.errorDict e), gc, []⟩
      | .ok processed =>
        if h.ensureOk = false then
          ⟨.error ("Failed to launch Things 3: " ++ optStr h.ensureErr), gc, [.ensure]⟩
        else
          let script := build_batch_update_script processed
          let result : AppleScriptResult := h.run script
          if result.success = false then
            ⟨.error ("Batch update failed: " ++ optStr result.error), gc, [.ensure, .exec script]⟩
          else
            let todo_names := parseNameTokens result.output
            let res0 := zipNameResults (itemsL.map (fun itm => itm.todo_id))
              "Failed to update todo" 0 todo_names
            let results := backfill res0 itemsL.length "Failed to update todo"
            let secondaryCalls := updateSecondaryCalls itemsL
            let succeeded := countNoError results
            let failed := results.length - succeeded
            let b : BatchResult := ⟨results, bid, itemsL.length, succeeded, failed⟩
            ⟨.ok (.batch b), dictSet gc idempotency_key b,
              [.ensure, .exec script] ++ secondaryCalls.map HostCall.exec⟩

/-- `bulk_tools.update_todo_bulk`. -/
def update_todo_bulk (h : Host) (gc : GenericCache) (bid idempotency_key : String)
    (items : Option (List UpdateItem)) : OpOut GenericCache :=
  let inner := update_todo_bulk_inner h gc bid idempotency_key items
  ⟨handle_tool_errors "update todo bulk" inner.res, inner.cache, inner.trace⟩

/-! ## The fallback functions (`bulk_tools._fallback_*`)

These exist in the source but no code path invokes them.  The single-item
collaborator (`create_todo`, `complete_todo`, …) is abstracted as
`step : Nat → Except String String`: the message string it returns for item
`i`, or `Except.error` with the message of an exception raised inside the
`try` block. -/

/-- The id parse of the create fallback:
`res.split("ID:")[-1].strip(") ") if "ID:" in res else None`. -/
def fallbackParseId (res : String) : Option String :=
  match pyAfterLast res "ID:" with
  | some suf => some (pyStripSet suf [')', ' '])
  | none => none

/-- The client-map update of the create fallback's success branch. -/
def fallbackClientUpdate (cmap : List (String × ClientEntry)) (itm : CreateItem)
    (todo_id : Option String) : List (String × ClientEntry) :=
  if truthy itm.client_id then
    dictSet cmap (itm.client_id.getD "") ⟨todo_id, none⟩
  else cmap

/-- Loop of the create fallback: accumulate outcomes, counters and the
client map in iteration order. -/
def fallbackCreateLoopAux (step : Nat → Except String String) (idx : Nat)
    (acc : List Outcome) (s f : Nat) (cmap : List (String × ClientEntry)) :
    List CreateItem → List Outcome × Nat × Nat × List (String × ClientEntry)
  | [] => (acc, s, f, cmap)
  | itm :: rest =>
    match step idx with
    | .ok res =>
      fallbackCreateLoopAux step (idx + 1)
        (acc ++ [build_result idx (fallbackParseId res) none])
        (s + 1) f (fallbackClientUpdate cmap itm (fallbackParseId res)) rest
    | .error e =>
      fallbackCreateLoopAux step (idx + 1) (acc ++ [build_result idx none (some e)])
        s (f + 1) cmap rest

/-- `bulk_tools._fallback_create_todo_bulk`.  Every non-raising `create_todo`
call counts as a success; the id is parsed from `"... (ID: X)"` when
present. -/
def fallback_create_todo_bulk (step : Nat → Except String String) (cache : ShelveCache)
    (bid idempotency_key : String) (items : List CreateItem) : BatchResult × ShelveCache :=
  let out := fallbackCreateLoopAux step 0 [] 0 0 [] items
  let b : BatchResult := ⟨out.1, bid, items.length, out.2.1, out.2.2.1⟩
  (b, ShelveCache.set cache idempotency_key ⟨b, out.2.2.2⟩)

/-- Loop shared by the other five fallbacks: each element is the item's
`todo_id` (or, for dict payloads, `Except.error` with the `KeyError` message
a missing key raises); a step result starting with `"❌"` is a failure. -/
def fallbackLoopAux (step : Nat → Except String String) (idx : Nat)
    (acc : List Outcome) (s f : Nat) :
    List (Except String String) → List Outcome × Nat × Nat
  | [] => (acc, s, f)
  | it :: rest =>
    match it with
    | .error e =>
      fallbackLoopAux step (idx + 1) (acc ++ [build_result idx none (some e)]) s (f + 1) rest
    | .ok tid =>
      match step idx with
      | .error e =>
        fallbackLoopAux step (idx + 1) (acc ++ [build_result idx none (some e)]) s (f + 1) rest
      | .ok res =>
        if pyStartsWith res "❌" then
          fallbackLoopAux step (idx + 1) (acc ++ [build_result idx none (some res)]) s (f + 1) rest
        else
          fallbackLoopAux step (idx + 1) (acc ++ [build_result idx (some tid) none]) (s + 1) f rest

/-- Assemble a fallback batch result and write it to the family's cache map. -/
def fallbackFinish (gc : GenericCache) (bid idempotency_key : String) (n : Nat)
    (out : List Outcome × Nat × Nat) : BatchResult × GenericCache :=
  let b : BatchResult := ⟨out.1, bid, n, out.2.1, out.2.2⟩
  (b, dictSet gc idempotency_key b)

/-- `bulk_tools._fallback_complete_todo_bulk`. -/
def fallback_complete_todo_bulk (step : Nat → Except String String) (gc : GenericCache)
    (bid idempotency_key : String) (items : List String) : BatchResult × GenericCache :=
  fallbackFinish gc bid idempotency_key items.length
    (fallbackLoopAux step 0 [] 0 0 (items.map Except.ok))

/-- `bulk_tools._fallback_cancel_todo_bulk`. -/
def fallback_cancel_todo_bulk (step : Nat → Except String String) (gc : GenericCache)
    (bid idempotency_key : String) (items : List String) : BatchResult × GenericCache :=
  fallbackFinish gc bid idempotency_key items.length
    (fallbackLoopAux step 0 [] 0 0 (items.map Except.ok))

/-- `bulk_tools._fallback_delete_todo_bulk`. -/
def fallback_delete_todo_bulk (step : Nat → Except String String) (gc : GenericCache)
    (bid idempotency_key : String) (items : List String) : BatchResult × GenericCache :=
  fallbackFinish gc bid idempotency_key items.length
    (fallbackLoopAux step 0 [] 0 0 (items.map Except.ok))

/-- `itm["todo_id"]`/`itm["destination_type"]`/`itm["destination_name"]` in
the move fallback: the first missing key raises `KeyError` whose `str` is
the quoted key name. -/
def moveItemAccess (itm : MoveItem) : Except String String :=
  match itm.todo_id with
  | none => .error "'todo_id'"
  | some tid =>
    match itm.destination_type with
    | none => .error "'destination_type'"
    | some _ =>
      match itm.destination_name with
      | none => .error "'destination_name'"
      | some _ => .ok tid

/-- `bulk_tools._fallback_move_todo_bulk`. -/
def fallback_move_todo_bulk (step : Nat → Except String String) (gc : GenericCache)
    (bid idempotency_key : String) (items : List MoveItem) : BatchResult × GenericCache :=
  fallbackFinish gc bid idempotency_key items.length
    (fallbackLoopAux step 0 [] 0 0 (items.map moveItemAccess))

/-- `itm["todo_id"]` in the update fallback. -/
def updateItemAccess (itm : UpdateItem) : Except String String :=
  match itm.todo_id with
  | none => .error "'todo_id'"
  | some tid => .ok tid

/-- `bulk_tools._fallback_update_todo_bulk`. -/
def fallback_update_todo_bulk (step : Nat → Except String String) (gc : GenericCache)
    (bid idempotency_key : String) (items : List UpdateItem) : BatchResult × GenericCache :=
  fallbackFinish gc bid idempotency_key items.length
    (fallbackLoopAux step 0 [] 0 0 (items.map updateItemAccess))

/-! ## Derived batch shapes and concrete fixtures -/

/-- The batch result the primary path of a name-returning bulk tool builds
from the host output (`ids` are the per-item `todo_id` values). -/
def namePrimaryBatch (ids : List (Option String)) (fm bid output : String) : BatchResult :=
  let results := backfill (zipNameResults ids fm 0 (parseNameTokens output)) ids.length fm
  ⟨results, bid, ids.length, countNoError results, results.length - countNoError results⟩

/-- The batch result the primary path of `create_todo_bulk` builds from the
host output (`n` is the item count). -/
def createPrimaryBatch (bid : String) (n : Nat) (output : String) : BatchResult :=
  let results := createResultsFrom 0 (parseCreateTokens output)
  ⟨results, bid, n, countNoError results, results.length - countNoError results⟩

instance {ε α : Type} [DecidableEq ε] [DecidableEq α] : DecidableEq (Except ε α) := fun x y =>
  match x, y with
  | .ok a, .ok b =>
    if h : a = b then isTrue (by rw [h]) else isFalse (fun he => h (Except.ok.inj he))
  | .error a, .error b =>
    if h : a = b then isTrue (by rw [h]) else isFalse (fun he => h (Except.error.inj he))
  | .ok _, .error _ => isFalse (fun he => Except.noConfusion he)
  | .error _, .ok _ => isFalse (fun he => Except.noConfusion he)

/-- A host whose every script execution succeeds with output `o`. -/
def constHost (o : String) : Host := ⟨true, none, fun _ => ⟨true, o, none⟩⟩

/-- A host whose every script execution fails with stderr "boom". -/
def failHost : Host := ⟨true, none, fun _ => ⟨false, "", some "boom"⟩⟩

/-- A one-field creation payload. -/
def itemTitled (t : String) : CreateItem := { title := some t }

/-- An empty durable create cache. -/
def emptyShelve : ShelveCache := ⟨[]⟩

/-- The exact JSON layout of a success outcome:
`{"index": i, "id": <string or null>}`. -/
def successShape (j : Json) : Prop :=
  ∃ i v, j = Json.obj [("index", Json.num i), ("id", v)]
    ∧ (v = Json.null ∨ ∃ s, v = Json.str s)

/-- The exact JSON layout of a failure outcome:
`{"index": i, "error": {"msg": <string>}}` — the `error` value is a nested
object with the single key `msg`, never a bare string. -/
def failureShape (j : Json) : Prop :=
  ∃ i m, j = Json.obj [("index", Json.num i), ("error", Json.obj [("msg", Json.str m)])]

/-- The primary batch-creation script for the one-item fixture. -/
def w8script : String := build_batch_todo_creation_script [itemTitled "A"]

/-- A host returning `A1` for the fixture's primary script and success for
every secondary script. -/
def w8host1 : Host :=
  ⟨true, none, fun s => if s = w8script then ⟨true, "A1", none⟩ else ⟨true, "ok", none⟩⟩

/-- A host agreeing with `w8host1` on the fixture's primary script but
failing every secondary script. -/
def w8host2 : Host :=
  ⟨true, none, fun s =>
    if s = w8script then ⟨true, "A1", none⟩ else ⟨false, "", some "tag step failed"⟩⟩

/-! ## Auxiliary lemmas -/

theorem dictGet_dictSet_self {β : Type} (m : List (String × β)) (k : String) (v : β) :
    dictGet (dictSet m k v) k = some v := by
  induction m with
  | nil => simp [dictSet, dictGet]
  | cons p rest ih =>
    obtain ⟨k0, v0⟩ := p
    by_cases h : k0 = k <;> simp [dictSet, dictGet, h, ih]

theorem build_result_index (i : Nat) (t : Option String) (e : Option String) :
    (build_result i t e).index = i := by
  unfold build_result
  cases e with
  | none => rfl
  | some s => cases hb : s.data.isEmpty <;> simp [hb, Outcome.index]

theorem range'_append_zero (a b : Nat) :
    List.range' 0 a ++ List.range' a b = List.range' 0 (a + b) := by
  have h := List.range'_append 0 a b 1
  simp [Nat.add_comm] at h
  exact h

theorem createResultsFrom_map_index (toks : List String) (start : Nat) :
    (createResultsFrom start toks).map Outcome.index = List.range' start toks.length := by
  induction toks generalizing start with
  | nil => simp [createResultsFrom]
  | cons t rest ih =>
    cases h : (pyStrip t).data.isEmpty <;>
      simp [createResultsFrom, h, build_result_index, ih, List.range'_succ]

theorem zipNameResults_out_of_range (ids : List (Option String)) (msg : String)
    (names : List String) (start : Nat) (h : ids.length ≤ start) :
    zipNameResults ids msg start names = [] := by
  induction names generalizing start with
  | nil => rfl
  | cons nm rest ih =>
    have hnl : ¬ start < ids.length := by omega
    simp [zipNameResults, hnl, ih (start + 1) (by omega)]

theorem zipNameResults_map_index (ids : List (Option String)) (msg : String)
    (names : List String) (start : Nat) :
    (zipNameResults ids msg start names).map Outcome.index
      = List.range' start (min names.length (ids.length - start)) := by
  induction names generalizing start with
  | nil => simp [zipNameResults]
  | cons nm rest ih =>
    by_cases hlt : start < ids.length
    · have h1 : min ((nm :: rest).length) (ids.length - start)
          = min rest.length (ids.length - (start + 1)) + 1 := by
        simp [List.length_cons]
        omega
      rw [h1, List.range'_succ]
      cases he : (pyStrip nm).data.isEmpty <;>
        simp [zipNameResults, hlt, he, build_result_index, ih]
    · have h0 : ids.length - start = 0 := by omega
      simp [zipNameResults, hlt,
        zipNameResults_out_of_range ids msg rest (start + 1) (by omega), h0]

theorem backfillAux_map_index (msg : String) (fuel start : Nat) :
    (backfillAux msg start fuel).map Outcome.index = List.range' start fuel := by
  induction fuel generalizing start with
  | zero => rfl
  | succ n ih => simp [backfillAux, build_result_index, ih, List.range'_succ]

/-- The aligned-results invariant of the five name-returning bulk tools: the
indices of `backfill (zipNameResults ids msg 0 names) ids.length msg` are
exactly `0, 1, …, ids.length - 1`. -/
theorem aligned_map_index (ids : List (Option String)) (msg : String) (names : List String) :
    (backfill (zipNameResults ids msg 0 names) ids.length msg).map Outcome.index
      = List.range ids.length := by
  have hlen : (zipNameResults ids msg 0 names).length = min names.length ids.length := by
    have h := congrArg List.length (zipNameResults_map_index ids msg names 0)
    simpa using h
  unfold backfill
  rw [List.map_append, zipNameResults_map_index, backfillAux_map_index, hlen,
    List.range_eq_range']
  simp only [Nat.sub_zero]
  rw [range'_append_zero]
  congr 1
  omega

/-- Length corollary of `aligned_map_index`. -/
theorem aligned_length (ids : List (Option String)) (msg : String) (names : List String) :
    (backfill (zipNameResults ids msg 0 names) ids.length msg).length = ids.length := by
  have h := congrArg List.length (aligned_map_index ids msg names)
  simpa using h

theorem countNoError_le (l : List Outcome) : countNoError l ≤ l.length :=
  List.countP_le_length _

/-- `handle_tool_errors` returns a batch value only when the body returned one. -/
theorem handle_tool_errors_batch_inv (opName : String) (r : Except String BulkReturn)
    (b : BatchResult) (h : handle_tool_errors opName r = .batch b) : r = .ok (.batch b) := by
  cases r with
  | ok v =>
    simp only [handle_tool_errors] at h
    exact congrArg Except.ok h
  | error e => simp [handle_tool_errors] at h

/-- `handle_tool_errors` returns a validation-error dict only when the body
returned one. -/
theorem handle_tool_errors_error_inv (opName : String) (r : Except String BulkReturn)
    (m : String) (h : handle_tool_errors opName r = .errorDict m) : r = .ok (.errorDict m) := by
  cases r with
  | ok v => simp [handle_tool_errors] at h; exact congrArg Except.ok h
  | error e => simp [handle_tool_errors] at h

/-- A cache hit short-circuits `idListBulkInner` unconditionally. -/
theorem idList_inner_cacheHit (bs : List String → String) (fm rp : String) (h : Host)
    (gc : GenericCache) (bid key : String) (items : Option (List String)) (b : BatchResult)
    (hget : dictGet gc key = some b) :
    idListBulkInner bs fm rp h gc bid key items = ⟨.ok (.batch b), gc, []⟩ := by
  unfold idListBulkInner
  simp [hget]

/-- A cache hit short-circuits `create_todo_bulk_inner` unconditionally. -/
theorem create_inner_cacheHit (h : Host) (c : ShelveCache) (bid key : String)
    (items : Option (List CreateItem)) (entry : CacheEntry)
    (hget : ShelveCache.get c key = some entry) :
    create_todo_bulk_inner h c bid key items = ⟨.ok (.batch entry.batch), c, []⟩ := by
  unfold create_todo_bulk_inner
  simp [hget]

/-- A cache hit short-circuits `move_todo_bulk_inner` unconditionally. -/
theorem move_inner_cacheHit (h : Host) (gc : GenericCache) (bid key : String)
    (items : Option (List MoveItem)) (b : BatchResult)
    (hget : dictGet gc key = some b) :
    move_todo_bulk_inner h gc bid key items = ⟨.ok (.batch b), gc, []⟩ := by
  unfold move_todo_bulk_inner
  simp [hget]

/-- A cache hit short-circuits `update_todo_bulk_inner` unconditionally. -/
theorem update_inner_cacheHit (h : Host) (gc : GenericCache) (bid key : String)
    (items : Option (List UpdateItem)) (b : BatchResult)
    (hget : dictGet gc key = some b) :
    update_todo_bulk_inner h gc bid key items = ⟨.ok (.batch b), gc, []⟩ := by
  unfold update_todo_bulk_inner
  simp [hget]

/-- Evaluation of `idListBulkInner` on the primary-success path. -/
theorem idList_inner_primary (bs : List String → String) (fm rp : String) (h : Host)
    (gc : GenericCache) (bid key : String) (l : List String)
    (hget : dictGet gc key = none) (hval : validate_batch (some l) key = none)
    (hfe : firstEmptyIdError 0 l = none) (hens : h.ensureOk = true)
    (hrs : (h.run (bs l)).success = true) :
    idListBulkInner bs fm rp h gc bid key (some l)
      = ⟨.ok (.batch (namePrimaryBatch (l.map some) fm bid (h.run (bs l)).output)),
          dictSet gc key (namePrimaryBatch (l.map some) fm bid (h.run (bs l)).output),
          [.ensure, .exec (bs l)]⟩ := by
  simp [idListBulkInner, hget, hval, hfe, hens, hrs, namePrimaryBatch]

/-- Evaluation of `idListBulkInner` when the executor reports failure. -/
theorem idList_inner_execFail (bs : List String → String) (fm rp : String) (h : Host)
    (gc : GenericCache) (bid key : String) (l : List String)
    (hget : dictGet gc key = none) (hval : validate_batch (some l) key = none)
    (hfe : firstEmptyIdError 0 l = none) (hens : h.ensureOk = true)
    (hrs : (h.run (bs l)).success = false) :
    idListBulkInner bs fm rp h gc bid key (some l)
      = ⟨.error (rp ++ ": " ++ optStr (h.run (bs l)).error), gc, [.ensure, .exec (bs l)]⟩ := by
  simp [idListBulkInner, hget, hval, hfe, hens, hrs]

/-- Evaluation of `create_todo_bulk_inner` on the primary-success path. -/
theorem create_inner_primary (h : Host) (c : ShelveCache) (bid key : String)
    (l processed : List CreateItem)
    (hget : ShelveCache.get c key = none) (hval : validate_batch (some l) key = none)
    (hproc : createProcessItems 0 l = .ok processed) (hens : h.ensureOk = true)
    (hrs : (h.run (build_batch_todo_creation_script processed)).success = true) :
    create_todo_bulk_inner h c bid key (some l)
      = ⟨.ok (.batch (createPrimaryBatch bid l.length
            (h.run (build_batch_todo_creation_script processed)).output)),
          ShelveCache.set c key
            ⟨createPrimaryBatch bid l.length
              (h.run (build_batch_todo_creation_script processed)).output,
             buildClientMap l (createResultsFrom 0 (parseCreateTokens
               (h.run (build_batch_todo_creation_script processed)).output))⟩,
          [.ensure, .exec (build_batch_todo_creation_script processed)]
            ++ ((createSchedCallsFrom (parseCreateTokens
                  (h.run (build_batch_todo_creation_script processed)).output) 0 processed)
                ++ (createTagCallsFrom (parseCreateTokens
                  (h.run (build_batch_todo_creation_script processed)).output) 0 processed)).map
                HostCall.exec⟩ := by
  simp [create_todo_bulk_inner, hget, hval, hproc, hens, hrs, createPrimaryBatch]

/-- Evaluation of `create_todo_bulk_inner` when the host cannot be launched. -/
theorem create_inner_ensureFail (h : Host) (c : ShelveCache) (bid key : String)
    (l processed : List CreateItem)
    (hget : ShelveCache.get c key = none) (hval : validate_batch (some l) key = none)
    (hproc : createProcessItems 0 l = .ok processed) (hens : h.ensureOk = false) :
    create_todo_bulk_inner h c bid key (some l)
      = ⟨.error ("Failed to launch Things 3: " ++ optStr h.ensureErr), c, [.ensure]⟩ := by
  simp [create_todo_bulk_inner, hget, hval, hproc, hens]

/-- Evaluation of `create_todo_bulk_inner` when the executor reports failure. -/
theorem create_inner_execFail (h : Host) (c : ShelveCache) (bid key : String)
    (l processed : List CreateItem)
    (hget : ShelveCache.get c key = none) (hval : validate_batch (some l) key = none)
    (hproc : createProcessItems 0 l = .ok processed) (hens : h.ensureOk = true)
    (hrs : (h.run (build_batch_todo_creation_script processed)).success = false) :
    create_todo_bulk_inner h c bid key (some l)
      = ⟨.error ("Batch creation failed: "
            ++ optStr (h.run (build_batch_todo_creation_script processed)).error), c,
          [.ensure, .exec (build_batch_todo_creation_script processed)]⟩ := by
  simp [create_todo_bulk_inner, hget, hval, hproc, hens, hrs]

/-- Evaluation of `move_todo_bulk_inner` on the primary-success path. -/
theorem move_inner_primary (h : Host) (gc : GenericCache) (bid key : String)
    (l : List MoveItem) (processed : List MoveProcessed)
    (hget : dictGet gc key = none) (hval : validate_batch (some l) key = none)
    (hproc : moveProcessItems 0 l = .ok processed) (hens : h.ensureOk = true)
    (hrs : (h.run (build_batch_move_script processed)).success = true) :
    move_todo_bulk_inner h gc bid key (some l)
      = ⟨.ok (.batch (namePrimaryBatch (l.map (fun itm => itm.todo_id)) "Failed to move todo"
            bid (h.run (build_batch_move_script processed)).output)),
          dictSet gc key (namePrimaryBatch (l.map (fun itm => itm.todo_id)) "Failed to move todo"
            bid (h.run (build_batch_move_script processed)).output),
          [.ensure, .exec (build_batch_move_script processed)]⟩ := by
  simp [move_todo_bulk_inner, hget, hval, hproc, hens, hrs, namePrimaryBatch]

/-- Evaluation of `move_todo_bulk_inner` when the executor reports failure. -/
theorem move_inner_execFail (h : Host) (gc : GenericCache) (bid key : String)
    (l : List MoveItem) (processed : List MoveProcessed)
    (hget : dictGet gc key = none) (hval : validate_batch (some l) key = none)
    (hproc : moveProcessItems 0 l = .ok processed) (hens : h.ensureOk = true)
    (hrs : (h.run (build_batch_move_script processed)).success = false) :
    move_todo_bulk_inner h gc bid key (some l)
      = ⟨.error ("Batch move failed: " ++ optStr (h.run (build_batch_move_script processed)).error),
          gc, [.ensure, .exec (build_batch_move_script processed)]⟩ := by
  simp [move_todo_bulk_inner, hget, hval, hproc, hens, hrs]

/-- Evaluation of `update_todo_bulk_inner` on the primary-success path. -/
theorem update_inner_primary (h : Host) (gc : GenericCache) (bid key : String)
    (l : List UpdateItem) (processed : List UpdateProcessed)
    (hget : dictGet gc key = none) (hval : validate_batch (some l) key = none)
    (hproc : updateProcessItems 0 l = .ok processed) (hens : h.ensureOk = true)
    (hrs : (h.run (build_batch_update_script processed)).success = true) :
    update_todo_bulk_inner h gc bid key (some l)
      = ⟨.ok (.batch (namePrimaryBatch (l.map (fun itm => itm.todo_id)) "Failed to update todo"
            bid (h.run (build_batch_update_script processed)).output)),
          dictSet gc key (namePrimaryBatch (l.map (fun itm => itm.todo_id)) "Failed to update todo"
            bid (h.run (build_batch_update_script processed)).output),
          [.ensure, .exec (build_batch_update_script processed)]
            ++ (updateSecondaryCalls l).map HostCall.exec⟩ := by
  simp [update_todo_bulk_inner, hget, hval, hproc, hens, hrs, namePrimaryBatch]

/-- Evaluation of `update_todo_bulk_inner` when the executor reports failure. -/
theorem update_inner_execFail (h : Host) (gc : GenericCache) (bid key : String)
    (l : List UpdateItem) (processed : List UpdateProcessed)
    (hget : dictGet gc key = none) (hval : validate_batch (some l) key = none)
    (hproc : updateProcessItems 0 l = .ok processed) (hens : h.ensureOk = true)
    (hrs : (h.run (build_batch_update_script processed)).success = false) :
    update_todo_bulk_inner h gc bid key (some l)
      = ⟨.error ("Batch update failed: "
            ++ optStr (h.run (build_batch_update_script processed)).error),
          gc, [.ensure, .exec (build_batch_update_script processed)]⟩ := by
  simp [update_todo_bulk_inner, hget, hval, hproc, hens, hrs]

/-- When `idListBulkInner` returns a batch result, that result is stored
under the idempotency key in the returned cache. -/
theorem idList_inner_batch_stored (bs : List String → String) (fm rp : String) (h : Host)
    (gc : GenericCache) (bid key : String) (items : Option (List String)) (b : BatchResult)
    (hb : (idListBulkInner bs fm rp h gc bid key items).res = .ok (.batch b)) :
    dictGet (idListBulkInner bs fm rp h gc bid key items).cache key = some b := by
  cases hget : dictGet gc key with
  | some b0 =>
    rw [idList_inner_cacheHit bs fm rp h gc bid key items b0 hget] at hb ⊢
    simp at hb ⊢
    rw [hget, hb]
  | none =>
    cases items with
    | none => simp [idListBulkInner, hget] at hb
    | some l =>
      cases hval : validate_batch (some l) key with
      | some m => simp [idListBulkInner, hget, hval] at hb
      | none =>
        cases hfe : firstEmptyIdError 0 l with
        | some m => simp [idListBulkInner, hget, hval, hfe] at hb
        | none =>
          cases hens : h.ensureOk with
          | false => simp [idListBulkInner, hget, hval, hfe, hens] at hb
          | true =>
            cases hrs : (h.run (bs l)).success with
            | false =>
              rw [idList_inner_execFail bs fm rp h gc bid key l hget hval hfe hens hrs] at hb
              simp at hb
            | true =>
              rw [idList_inner_primary bs fm rp h gc bid key l hget hval hfe hens hrs] at hb ⊢
              simp at hb
              rw [← hb]
              exact dictGet_dictSet_self gc key _

/-- When `create_todo_bulk_inner` returns a batch result, it is stored with
its client map under the idempotency key in the returned cache. -/
theorem create_inner_batch_stored (h : Host) (c : ShelveCache) (bid key : String)
    (items : Option (List CreateItem)) (b : BatchResult)
    (hb : (create_todo_bulk_inner h c bid key items).res = .ok (.batch b)) :
    (ShelveCache.get (create_todo_bulk_inner h c bid key items).cache key).map CacheEntry.batch
      = some b := by
  cases hget : ShelveCache.get c key with
  | some entry =>
    rw [create_inner_cacheHit h c bid key items entry hget] at hb ⊢
    simp [hget] at hb ⊢
    exact hb
  | none =>
    cases items with
    | none => simp [create_todo_bulk_inner, hget, validate_batch] at hb
    | some l =>
      cases hval : validate_batch (some l) key with
      | some m => simp [create_todo_bulk_inner, hget, hval] at hb
      | none =>
        cases hproc : createProcessItems 0 l with
        | error m => simp [create_todo_bulk_inner, hget, hval, hproc] at hb
        | ok processed =>
          cases hens : h.ensureOk with
          | false => simp [create_todo_bulk_inner, hget, hval, hproc, hens] at hb
          | true =>
            cases hrs : (h.run (build_batch_todo_creation_script processed)).success with
            | false =>
              rw [create_inner_execFail h c bid key l processed hget hval hproc hens hrs] at hb
              simp at hb
            | true =>
              rw [create_inner_primary h c bid key l processed hget hval hproc hens hrs] at hb ⊢
              simp at hb
              rw [← hb]
              simp [ShelveCache.get, ShelveCache.set, dictGet_dictSet_self]

/-- When `move_todo_bulk_inner` returns a batch result, it is stored. -/
theorem move_inner_batch_stored (h : Host) (gc : GenericCache) (bid key : String)
    (items : Option (List MoveItem)) (b : BatchResult)
    (hb : (move_todo_bulk_inner h gc bid key items).res = .ok (.batch b)) :
    dictGet (move_todo_bulk_inner h gc bid key items).cache key = some b := by
  cases hget : dictGet gc key with
  | some b0 =>
    rw [move_inner_cacheHit h gc bid key items b0 hget] at hb ⊢
    simp at hb ⊢
    rw [hget, hb]
  | none =>
    cases items with
    | none => simp [move_todo_bulk_inner, hget, validate_batch] at hb
    | some l =>
      cases hval : validate_batch (some l) key with
      | some m => simp [move_todo_bulk_inner, hget, hval] at hb
      | none =>
        cases hproc : moveProcessItems 0 l with
        | error m => simp [move_todo_bulk_inner, hget, hval, hproc] at hb
        | ok processed =>
          cases hens : h.ensureOk with
          | false => simp [move_todo_bulk_inner, hget, hval, hproc, hens] at hb
          | true =>
            cases hrs : (h.run (build_batch_move_script processed)).success with
            | false =>
              rw [move_inner_execFail h gc bid key l processed hget hval hproc hens hrs] at hb
              simp at hb
            | true =>
              rw [move_inner_primary h gc bid key l processed hget hval hproc hens hrs] at hb ⊢
              simp at hb
              rw [← hb]
              exact dictGet_dictSet_self gc key _

/-- When `update_todo_bulk_inner` returns a batch result, it is stored. -/
theorem update_inner_batch_stored (h : Host) (gc : GenericCache) (bid key : String)
    (items : Option (List UpdateItem)) (b : BatchResult)
    (hb : (update_todo_bulk_inner h gc bid key items).res = .ok (.batch b)) :
    dictGet (update_todo_bulk_inner h gc bid key items).cache key = some b := by
  cases hget : dictGet gc key with
  | some b0 =>
    rw [update_inner_cacheHit h gc bid key items b0 hget] at hb ⊢
    simp at hb ⊢
    rw [hget, hb]
  | none =>
    cases items with
    | none => simp [update_todo_bulk_inner, hget, validate_batch] at hb
    | some l =>
      cases hval : validate_batch (some l) key with
      | some m => simp [update_todo_bulk_inner, hget, hval] at hb
      | none =>
        cases hproc : updateProcessItems 0 l with
        | error m => simp [update_todo_bulk_inner, hget, hval, hproc] at hb
        | ok processed =>
          cases hens : h.ensureOk with
          | false => simp [update_todo_bulk_inner, hget, hval, hproc, hens] at hb
          | true =>
            cases hrs : (h.run (build_batch_update_script processed)).success with
            | false =>
              rw [update_inner_execFail h gc bid key l processed hget hval hproc hens hrs] at hb
              simp at hb
            | true =>
              rw [update_inner_primary h gc bid key l processed hget hval hproc hens hrs] at hb ⊢
              simp at hb
              rw [← hb]
              exact dictGet_dictSet_self gc key _

/-- A validation error is only reachable on a cache miss (`idListBulkInner`). -/
theorem idList_inner_error_miss (bs : List String → String) (fm rp : String) (h : Host)
    (gc : GenericCache) (bid key : String) (items : Option (List String)) (m : String)
    (hb : (idListBulkInner bs fm rp h gc bid key items).res = .ok (.errorDict m)) :
    dictGet gc key = none := by
  cases hget : dictGet gc key with
  | none => rfl
  | some b0 =>
    rw [idList_inner_cacheHit bs fm rp h gc bid key items b0 hget] at hb
    simp at hb

/-- A validation error is only reachable on a cache miss (`create`). -/
theorem create_inner_error_miss (h : Host) (c : ShelveCache) (bid key : String)
    (items : Option (List CreateItem)) (m : String)
    (hb : (create_todo_bulk_inner h c bid key items).res = .ok (.errorDict m)) :
    ShelveCache.get c key = none := by
  cases hget : ShelveCache.get c key with
  | none => rfl
  | some entry =>
    rw [create_inner_cacheHit h c bid key items entry hget] at hb
    simp at hb

/-- A validation error is only reachable on a cache miss (`move`). -/
theorem move_inner_error_miss (h : Host) (gc : GenericCache) (bid key : String)
    (items : Option (List MoveItem)) (m : String)
    (hb : (move_todo_bulk_inner h gc bid key items).res = .ok (.errorDict m)) :
    dictGet gc key = none := by
  cases hget : dictGet gc key with
  | none => rfl
  | some b0 =>
    rw [move_inner_cacheHit h gc bid key items b0 hget] at hb
    simp at hb

/-- A validation error is only reachable on a cache miss (`update`). -/
theorem update_inner_error_miss (h : Host) (gc : GenericCache) (bid key : String)
    (items : Option (List UpdateItem)) (m : String)
    (hb : (update_todo_bulk_inner h gc bid key items).res = .ok (.errorDict m)) :
    dictGet gc key = none := by
  cases hget : dictGet gc key with
  | none => rfl
  | some b0 =>
    rw [update_inner_cacheHit h gc bid key items b0 hget] at hb
    simp at hb

/-- Counting invariant of the shared fallback loop: one outcome per item, and
exactly one of the two counters is bumped per item. -/
theorem fallbackLoopAux_counts (step : Nat → Except String String)
    (items : List (Except String String)) :
    ∀ idx acc s f,
      (fallbackLoopAux step idx acc s f items).1.length = acc.length + items.length ∧
      (fallbackLoopAux step idx acc s f items).2.1 + (fallbackLoopAux step idx acc s f items).2.2
        = s + f + items.length := by
  induction items with
  | nil => intro idx acc s f; simp [fallbackLoopAux]
  | cons it rest ih =>
    intro idx acc s f
    cases it with
    | error e =>
      have h := ih (idx + 1) (acc ++ [build_result idx none (some e)]) s (f + 1)
      simp only [fallbackLoopAux]
      simp only [List.length_append, List.length_cons, List.length_nil] at h ⊢
      omega
    | ok tid =>
      cases hst : step idx with
      | error e =>
        have h := ih (idx + 1) (acc ++ [build_result idx none (some e)]) s (f + 1)
        simp only [fallbackLoopAux, hst]
        simp only [List.length_append, List.length_cons, List.length_nil] at h ⊢
        omega
      | ok res =>
        cases hpre : pyStartsWith res "❌" with
        | true =>
          have h := ih (idx + 1) (acc ++ [build_result idx none (some res)]) s (f + 1)
          simp only [fallbackLoopAux, hst, hpre, if_true]
          simp only [List.length_append, List.length_cons, List.length_nil] at h ⊢
          omega
        | false =>
          have h := ih (idx + 1) (acc ++ [build_result idx (some tid) none]) (s + 1) f
          simp only [fallbackLoopAux, hst, hpre, Bool.false_eq_true, if_false]
          simp only [List.length_append, List.length_cons, List.length_nil] at h ⊢
          omega

/-- Counting invariant of the create fallback loop. -/
theorem fallbackCreateLoopAux_counts (step : Nat → Except String String)
    (items : List CreateItem) :
    ∀ idx acc s f cmap,
      (fallbackCreateLoopAux step idx acc s f cmap items).1.length
          = acc.length + items.length ∧
      (fallbackCreateLoopAux step idx acc s f cmap items).2.1
          + (fallbackCreateLoopAux step idx acc s f cmap items).2.2.1
        = s + f + items.length := by
  induction items with
  | nil => intro idx acc s f cmap; simp [fallbackCreateLoopAux]
  | cons itm rest ih =>
    intro idx acc s f cmap
    cases hst : step idx with
    | error e =>
      have h := ih (idx + 1) (acc ++ [build_result idx none (some e)]) s (f + 1) cmap
      simp only [fallbackCreateLoopAux, hst]
      simp only [List.length_append, List.length_cons, List.length_nil] at h ⊢
      omega
    | ok res =>
      simp only [fallbackCreateLoopAux, hst]
      have h := ih (idx + 1) (acc ++ [build_result idx (fallbackParseId res) none])
        (s + 1) f (fallbackClientUpdate cmap itm (fallbackParseId res))
      simp only [List.length_append, List.length_cons, List.length_nil] at h ⊢
      omega

/-! ## Claim theorems -/

/-- C7: the spec requires every user-supplied string embedded into a
generated script to have its double quotes escaped, naming in particular the
`todo_id` argument of `build_tag_addition_script`.  The code violates this:
at `todo_id = A"B` the builder emits the identifier raw (the script contains
`to do id "A"B"`, whose inner quote terminates the string literal), although
`_sanitize_applescript_string` would have produced `A\"B`; the script differs
from the one a sanitised embedding would yield.  Every sibling builder
sanitises its `todo_id`, so the claim matches the intent and the code is the
slip. -/
theorem C7_tag_script_unsanitized_id :
    build_tag_addition_script "A\"B" "t"
      = "\n    tell application \"Things3\"\n        set targetToDo to to do id \"A\"B\"\n        make new tag at targetToDo with properties \x7bname:\"t\"\x7d\n    end tell\n    "
    ∧ sanitize_applescript_string "A\"B" = "A\\\"B"
    ∧ build_tag_addition_script "A\"B" "t"
      ≠ "\n    tell application \"Things3\"\n        set targetToDo to to do id \"A\\\"B\"\n        make new tag at targetToDo with properties \x7bname:\"t\"\x7d\n    end tell\n    " := by
  refine ⟨by decide, by decide, by decide⟩

/-- C2 counterexample: `create_todo_bulk` does not backfill.  For a two-item
batch whose host returns the single token `A1`, the returned `results` list
has one entry, not two — refuting the claim that every bulk operation's
results list has exactly N entries even when fewer tokens come back. -/
theorem C2_counterexample :
    (create_todo_bulk (constHost "A1") emptyShelve "b0" "k"
        (some [itemTitled "A", itemTitled "B"])).val
      = BulkReturn.batch ⟨[Outcome.ok 0 (some "A1")], "b0", 2, 1, 0⟩
    ∧ ([Outcome.ok 0 (some "A1")] : List Outcome).length
        ≠ ([itemTitled "A", itemTitled "B"] : List CreateItem).length := by
  refine ⟨by decide, by decide⟩

/-- C3 counterexample: for `create_todo_bulk` with three items and host
output `X1`, the returned batch has `succeeded = 1`, `failed = 0`,
`processed = 3`, so `succeeded + failed ≠ processed` — refuting the count
invariant as claimed for every batch result. -/
theorem C3_counterexample :
    (create_todo_bulk (constHost "X1") emptyShelve "b1" "kk"
        (some [itemTitled "A", itemTitled "B", itemTitled "C"])).val
      = BulkReturn.batch ⟨[Outcome.ok 0 (some "X1")], "b1", 3, 1, 0⟩
    ∧ (1 + 0 : Nat) ≠ 3 := by
  refine ⟨by decide, by decide⟩

/-- C2 amended: for `complete`/`cancel`/`delete`/`move`/`update_todo_bulk`
every primary-path batch has exactly N outcomes whose `index` fields are
`0..N-1` (missing tokens are backfilled); for `create_todo_bulk` the results
list instead has one entry per parsed token — entry i still carries index i —
with no backfill, so its length is the token count, not the item count. -/
theorem C2_amended_alignment :
    (∀ (h : Host) (gc : GenericCache) (bid key : String) (l : List String) (b : BatchResult),
      dictGet gc key = none → validate_batch (some l) key = none →
      firstEmptyIdError 0 l = none → h.ensureOk = true →
      (h.run (build_batch_completion_script l)).success = true →
      (complete_todo_bulk h gc bid key (some l)).val = .batch b →
      b.results.length = l.length ∧ b.results.map Outcome.index = List.range l.length) ∧
    (∀ (h : Host) (gc : GenericCache) (bid key : String) (l : List String) (b : BatchResult),
      dictGet gc key = none → validate_batch (some l) key = none →
      firstEmptyIdError 0 l = none → h.ensureOk = true →
      (h.run (build_batch_cancellation_script l)).success = true →
      (cancel_todo_bulk h gc bid key (some l)).val = .batch b →
      b.results.length = l.length ∧ b.results.map Outcome.index = List.range l.length) ∧
    (∀ (h : Host) (gc : GenericCache) (bid key : String) (l : List String) (b : BatchResult),
      dictGet gc key = none → validate_batch (some l) key = none →
      firstEmptyIdError 0 l = none → h.ensureOk = true →
      (h.run (build_batch_delete_script l)).success = true →
      (delete_todo_bulk h gc bid key (some l)).val = .batch b →
      b.results.length = l.length ∧ b.results.map Outcome.index = List.range l.length) ∧
    (∀ (h : Host) (gc : GenericCache) (bid key : String) (l : List MoveItem)
        (processed : List MoveProcessed) (b : BatchResult),
      dictGet gc key = none → validate_batch (some l) key = none →
      moveProcessItems 0 l = .ok processed → h.ensureOk = true →
      (h.run (build_batch_move_script processed)).success = true →
      (move_todo_bulk h gc bid key (some l)).val = .batch b →
      b.results.length = l.length ∧ b.results.map Outcome.index = List.range l.length) ∧
    (∀ (h : Host) (gc : GenericCache) (bid key : String) (l : List UpdateItem)
        (processed : List UpdateProcessed) (b : BatchResult),
      dictGet gc key = none → validate_batch (some l) key = none →
      updateProcessItems 0 l = .ok processed → h.ensureOk = true →
      (h.run (build_batch_update_script processed)).success = true →
      (update_todo_bulk h gc bid key (some l)).val = .batch b →
      b.results.length = l.length ∧ b.results.map Outcome.index = List.range l.length) ∧
    (∀ (h : Host) (c : ShelveCache) (bid key : String) (l processed : List CreateItem)
        (b : BatchResult),
      ShelveCache.get c key = none → validate_batch (some l) key = none →
      createProcessItems 0 l = .ok processed → h.ensureOk = true →
      (h.run (build_batch_todo_creation_script processed)).success = true →
      (create_todo_bulk h c bid key (some l)).val = .batch b →
      b.results.length
          = (parseCreateTokens (h.run (build_batch_todo_creation_script processed)).output).length
        ∧ b.results.map Outcome.index = List.range b.results.length) := by
  refine ⟨?_, ?_, ?_, ?_, ?_, ?_⟩
  · intro h gc bid key l b hget hval hfe hens hrs hb
    simp only [complete_todo_bulk] at hb
    rw [idList_inner_primary _ _ _ h gc bid key l hget hval hfe hens hrs] at hb
    simp only [handle_tool_errors, BulkReturn.batch.injEq] at hb
    subst hb
    constructor
    · simpa [namePrimaryBatch, List.length_map] using
        aligned_length (l.map some) "Failed to complete todo"
          (parseNameTokens (h.run (build_batch_completion_script l)).output)
    · simpa [namePrimaryBatch, List.length_map] using
        aligned_map_index (l.map some) "Failed to complete todo"
          (parseNameTokens (h.run (build_batch_completion_script l)).output)
  · intro h gc bid key l b hget hval hfe hens hrs hb
    simp only [cancel_todo_bulk] at hb
    rw [idList_inner_primary _ _ _ h gc bid key l hget hval hfe hens hrs] at hb
    simp only [handle_tool_errors, BulkReturn.batch.injEq] at hb
    subst hb
    constructor
    · simpa [namePrimaryBatch, List.length_map] using
        aligned_length (l.map some) "Failed to cancel todo"
          (parseNameTokens (h.run (build_batch_cancellation_script l)).output)
    · simpa [namePrimaryBatch, List.length_map] using
        aligned_map_index (l.map some) "Failed to cancel todo"
          (parseNameTokens (h.run (build_batch_cancellation_script l)).output)
  · intro h gc bid key l b hget hval hfe hens hrs hb
    simp only [delete_todo_bulk] at hb
    rw [idList_inner_primary _ _ _ h gc bid key l hget hval hfe hens hrs] at hb
    simp only [handle_tool_errors, BulkReturn.batch.injEq] at hb
    subst hb
    constructor
    · simpa [namePrimaryBatch, List.length_map] using
        aligned_length (l.map some) "Failed to delete todo"
          (parseNameTokens (h.run (build_batch_delete_script l)).output)
    · simpa [namePrimaryBatch, List.length_map] using
        aligned_map_index (l.map some) "Failed to delete todo"
          (parseNameTokens (h.run (build_batch_delete_script l)).output)
  · intro h gc bid key l processed b hget hval hproc hens hrs hb
    simp only [move_todo_bulk] at hb
    rw [move_inner_primary h gc bid key l processed hget hval hproc hens hrs] at hb
    simp only [handle_tool_errors, BulkReturn.batch.injEq] at hb
    subst hb
    constructor
    · simpa [namePrimaryBatch, List.length_map] using
        aligned_length (l.map (fun itm => itm.todo_id)) "Failed to move todo"
          (parseNameTokens (h.run (build_batch_move_script processed)).output)
    · simpa [namePrimaryBatch, List.length_map] using
        aligned_map_index (l.map (fun itm => itm.todo_id)) "Failed to move todo"
          (parseNameTokens (h.run (build_batch_move_script processed)).output)
  · intro h gc bid key l processed b hget hval hproc hens hrs hb
    simp only [update_todo_bulk] at hb
    rw [update_inner_primary h gc bid key l processed hget hval hproc hens hrs] at hb
    simp only [handle_tool_errors, BulkReturn.batch.injEq] at hb
    subst hb
    constructor
    · simpa [namePrimaryBatch, List.length_map] using
        aligned_length (l.map (fun itm => itm.todo_id)) "Failed to update todo"
          (parseNameTokens (h.run (build_batch_update_script processed)).output)
    · simpa [namePrimaryBatch, List.length_map] using
        aligned_map_index (l.map (fun itm => itm.todo_id)) "Failed to update todo"
          (parseNameTokens (h.run (build_batch_update_script processed)).output)
  · intro h c bid key l processed b hget hval hproc hens hrs hb
    simp only [create_todo_bulk] at hb
    rw [create_inner_primary h c bid key l processed hget hval hproc hens hrs] at hb
    simp only [handle_tool_errors, BulkReturn.batch.injEq] at hb
    subst hb
    have hidx := createResultsFrom_map_index
      (parseCreateTokens (h.run (build_batch_todo_creation_script processed)).output) 0
    have hlen : (createResultsFrom 0
        (parseCreateTokens (h.run (build_batch_todo_creation_script processed)).output)).length
        = (parseCreateTokens (h.run (build_batch_todo_creation_script processed)).output).length := by
      have := congrArg List.length hidx
      simpa using this
    constructor
    · simpa [createPrimaryBatch] using hlen
    · simp only [createPrimaryBatch]
      rw [hlen, hidx, List.range_eq_range']

/-- Witness for `C2_amended_alignment`: the spec's own concrete scenario —
`complete_todo_bulk` over two ids with a single returned token. -/
theorem C2_amended_alignment_witness :
    ((complete_todo_bulk (constHost "NameOne") [] "b0" "kw" (some ["id1", "id2"])).val
        = BulkReturn.batch ⟨[Outcome.ok 0 (some "id1"), Outcome.err 1 "Failed to complete todo"],
            "b0", 2, 1, 1⟩)
    ∧ (⟨[Outcome.ok 0 (some "id1"), Outcome.err 1 "Failed to complete todo"],
          "b0", 2, 1, 1⟩ : BatchResult).results.length = 2
    ∧ (⟨[Outcome.ok 0 (some "id1"), Outcome.err 1 "Failed to complete todo"],
          "b0", 2, 1, 1⟩ : BatchResult).results.map Outcome.index = List.range 2 :=
  ⟨by decide,
   (C2_amended_alignment.1 (constHost "NameOne") [] "b0" "kw" ["id1", "id2"] _
      (by decide) (by decide) (by decide) (by decide) (by decide) (by decide)).1,
   (C2_amended_alignment.1 (constHost "NameOne") [] "b0" "kw" ["id1", "id2"] _
      (by decide) (by decide) (by decide) (by decide) (by decide) (by decide)).2⟩

/-- C3 amended: `succeeded + failed` always equals the length of the
`results` list.  For the five name-returning tools (and for every fallback
function) that length is `processed = len(items)`; for `create_todo_bulk`'s
primary path it is the parsed token count, which can differ from
`processed`. -/
theorem C3_amended_counts :
    (∀ (h : Host) (gc : GenericCache) (bid key : String) (l : List String) (b : BatchResult),
      dictGet gc key = none → validate_batch (some l) key = none →
      firstEmptyIdError 0 l = none → h.ensureOk = true →
      (h.run (build_batch_completion_script l)).success = true →
      (complete_todo_bulk h gc bid key (some l)).val = .batch b →
      b.succeeded + b.failed = b.processed ∧ b.processed = l.length) ∧
    (∀ (h : Host) (gc : GenericCache) (bid key : String) (l : List String) (b : BatchResult),
      dictGet gc key = none → validate_batch (some l) key = none →
      firstEmptyIdError 0 l = none → h.ensureOk = true →
      (h.run (build_batch_cancellation_script l)).success = true →
      (cancel_todo_bulk h gc bid key (some l)).val = .batch b →
      b.succeeded + b.failed = b.processed ∧ b.processed = l.length) ∧
    (∀ (h : Host) (gc : GenericCache) (bid key : String) (l : List String) (b : BatchResult),
      dictGet gc key = none → validate_batch (some l) key = none →
      firstEmptyIdError 0 l = none → h.ensureOk = true →
      (h.run (build_batch_delete_script l)).success = true →
      (delete_todo_bulk h gc bid key (some l)).val = .batch b →
      b.succeeded + b.failed = b.processed ∧ b.processed = l.length) ∧
    (∀ (h : Host) (gc : GenericCache) (bid key : String) (l : List MoveItem)
        (processed : List MoveProcessed) (b : BatchResult),
      dictGet gc key = none → validate_batch (some l) key = none →
      moveProcessItems 0 l = .ok processed → h.ensureOk = true →
      (h.run (build_batch_move_script processed)).success = true →
      (move_todo_bulk h gc bid key (some l)).val = .batch b →
      b.succeeded + b.failed = b.processed ∧ b.processed = l.length) ∧
    (∀ (h : Host) (gc : GenericCache) (bid key : String) (l : List UpdateItem)
        (processed : List UpdateProcessed) (b : BatchResult),
      dictGet gc key = none → validate_batch (some l) key = none →
      updateProcessItems 0 l = .ok processed → h.ensureOk = true →
      (h.run (build_batch_update_script processed)).success = true →
      (update_todo_bulk h gc bid key (some l)).val = .batch b →
      b.succeeded + b.failed = b.processed ∧ b.processed = l.length) ∧
    (∀ (h : Host) (c : ShelveCache) (bid key : String) (l processed : List CreateItem)
        (b : BatchResult),
      ShelveCache.get c key = none → validate_batch (some l) key = none →
      createProcessItems 0 l = .ok processed → h.ensureOk = true →
      (h.run (build_batch_todo_creation_script processed)).success = true →
      (create_todo_bulk h c bid key (some l)).val = .batch b →
      b.succeeded + b.failed = b.results.length ∧ b.processed = l.length) ∧
    (∀ (step : Nat → Except String String) (gc : GenericCache) (bid key : String)
        (items : List String),
      (fallback_complete_todo_bulk step gc bid key items).1.succeeded
          + (fallback_complete_todo_bulk step gc bid key items).1.failed
        = (fallback_complete_todo_bulk step gc bid key items).1.processed
      ∧ (fallback_complete_todo_bulk step gc bid key items).1.processed = items.length) ∧
    (∀ (step : Nat → Except String String) (gc : GenericCache) (bid key : String)
        (items : List String),
      (fallback_cancel_todo_bulk step gc bid key items).1.succeeded
          + (fallback_cancel_todo_bulk step gc bid key items).1.failed
        = (fallback_cancel_todo_bulk step gc bid key items).1.processed
      ∧ (fallback_cancel_todo_bulk step gc bid key items).1.processed = items.length) ∧
    (∀ (step : Nat → Except String String) (gc : GenericCache) (bid key : String)
        (items : List String),
      (fallback_delete_todo_bulk step gc bid key items).1.succeeded
          + (fallback_delete_todo_bulk step gc bid key items).1.failed
        = (fallback_delete_todo_bulk step gc bid key items).1.processed
      ∧ (fallback_delete_todo_bulk step gc bid key items).1.processed = items.length) ∧
    (∀ (step : Nat → Except String String) (gc : GenericCache) (bid key : String)
        (items : List MoveItem),
      (fallback_move_todo_bulk step gc bid key items).1.succeeded
          + (fallback_move_todo_bulk step gc bid key items).1.failed
        = (fallback_move_todo_bulk step gc bid key items).1.processed
      ∧ (fallback_move_todo_bulk step gc bid key items).1.processed = items.length) ∧
    (∀ (step : Nat → Except String String) (gc : GenericCache) (bid key : String)
        (items : List UpdateItem),
      (fallback_update_todo_bulk step gc bid key items).1.succeeded
          + (fallback_update_todo_bulk step gc bid key items).1.failed
        = (fallback_update_todo_bulk step gc bid key items).1.processed
      ∧ (fallback_update_todo_bulk step gc bid key items).1.processed = items.length) ∧
    (∀ (step : Nat → Except String String) (c : ShelveCache) (bid key : String)
        (items : List CreateItem),
      (fallback_create_todo_bulk step c bid key items).1.succeeded
          + (fallback_create_todo_bulk step c bid key items).1.failed
        = (fallback_create_todo_bulk step c bid key items).1.processed
      ∧ (fallback_create_todo_bulk step c bid key items).1.processed = items.length) := by
  have nameOp : ∀ (ids : List (Option String)) (fm bid output : String),
      (namePrimaryBatch ids fm bid output).succeeded + (namePrimaryBatch ids fm bid output).failed
        = (namePrimaryBatch ids fm bid output).processed := by
    intro ids fm bid output
    have hle := countNoError_le (backfill (zipNameResults ids fm 0 (parseNameTokens output))
      ids.length fm)
    have hlen := aligned_length ids fm (parseNameTokens output)
    simp only [namePrimaryBatch]
    omega
  have fbName : ∀ (step : Nat → Except String String) (gc : GenericCache) (bid key : String)
      (its : List (Except String String)),
      (fallbackFinish gc bid key its.length (fallbackLoopAux step 0 [] 0 0 its)).1.succeeded
          + (fallbackFinish gc bid key its.length (fallbackLoopAux step 0 [] 0 0 its)).1.failed
        = (fallbackFinish gc bid key its.length (fallbackLoopAux step 0 [] 0 0 its)).1.processed := by
    intro step gc bid key its
    have h := (fallbackLoopAux_counts step its 0 [] 0 0).2
    simp only [fallbackFinish]
    simpa using h
  refine ⟨?_, ?_, ?_, ?_, ?_, ?_, ?_, ?_, ?_, ?_, ?_, ?_⟩
  · intro h gc bid key l b hget hval hfe hens hrs hb
    simp only [complete_todo_bulk] at hb
    rw [idList_inner_primary _ _ _ h gc bid key l hget hval hfe hens hrs] at hb
    simp only [handle_tool_errors, BulkReturn.batch.injEq] at hb
    subst hb
    exact ⟨nameOp _ _ _ _, by simp [namePrimaryBatch]⟩
  · intro h gc bid key l b hget hval hfe hens hrs hb
    simp only [cancel_todo_bulk] at hb
    rw [idList_inner_primary _ _ _ h gc bid key l hget hval hfe hens hrs] at hb
    simp only [handle_tool_errors, BulkReturn.batch.injEq] at hb
    subst hb
    exact ⟨nameOp _ _ _ _, by simp [namePrimaryBatch]⟩
  · intro h gc bid key l b hget hval hfe hens hrs hb
    simp only [delete_todo_bulk] at hb
    rw [idList_inner_primary _ _ _ h gc bid key l hget hval hfe hens hrs] at hb
    simp only [handle_tool_errors, BulkReturn.batch.injEq] at hb
    subst hb
    exact ⟨nameOp _ _ _ _, by simp [namePrimaryBatch]⟩
  · intro h gc bid key l processed b hget hval hproc hens hrs hb
    simp only [move_todo_bulk] at hb
    rw [move_inner_primary h gc bid key l processed hget hval hproc hens hrs] at hb
    simp only [handle_tool_errors, BulkReturn.batch.injEq] at hb
    subst hb
    exact ⟨nameOp _ _ _ _, by simp [namePrimaryBatch]⟩
  · intro h gc bid key l processed b hget hval hproc hens hrs hb
    simp only [update_todo_bulk] at hb
    rw [update_inner_primary h gc bid key l processed hget hval hproc hens hrs] at hb
    simp only [handle_tool_errors, BulkReturn.batch.injEq] at hb
    subst hb
    exact ⟨nameOp _ _ _ _, by simp [namePrimaryBatch]⟩
  · intro h c bid key l processed b hget hval hproc hens hrs hb
    simp only [create_todo_bulk] at hb
    rw [create_inner_primary h c bid key l processed hget hval hproc hens hrs] at hb
    simp only [handle_tool_errors, BulkReturn.batch.injEq] at hb
    subst hb
    constructor
    · have hle := countNoError_le (createResultsFrom 0 (parseCreateTokens
        (h.run (build_batch_todo_creation_script processed)).output))
      simp only [createPrimaryBatch]
      omega
    · simp [createPrimaryBatch]
  · intro step gc bid key items
    exact ⟨by simpa [List.length_map] using fbName step gc bid key (items.map Except.ok),
      by simp [fallback_complete_todo_bulk, fallbackFinish]⟩
  · intro step gc bid key items
    exact ⟨by simpa [List.length_map] using fbName step gc bid key (items.map Except.ok),
      by simp [fallback_cancel_todo_bulk, fallbackFinish]⟩
  · intro step gc bid key items
    exact ⟨by simpa [List.length_map] using fbName step gc bid key (items.map Except.ok),
      by simp [fallback_delete_todo_bulk, fallbackFinish]⟩
  · intro step gc bid key items
    exact ⟨by simpa [List.length_map] using fbName step gc bid key (items.map moveItemAccess),
      by simp [fallback_move_todo_bulk, fallbackFinish]⟩
  · intro step gc bid key items
    exact ⟨by simpa [List.length_map] using fbName step gc bid key (items.map updateItemAccess),
      by simp [fallback_update_todo_bulk, fallbackFinish]⟩
  · intro step c bid key items
    have h := (fallbackCreateLoopAux_counts step items 0 [] 0 0 []).2
    constructor
    · simp only [fallback_create_todo_bulk]
      simpa using h
    · simp [fallback_create_todo_bulk]

/-- Witness for `C3_amended_counts`: the two-id completion scenario. -/
theorem C3_amended_counts_witness :
    ((complete_todo_bulk (constHost "NameOne") [] "b0" "kw3" (some ["id1", "id2"])).val
        = BulkReturn.batch ⟨[Outcome.ok 0 (some "id1"), Outcome.err 1 "Failed to complete todo"],
            "b0", 2, 1, 1⟩)
    ∧ (1 + 1 : Nat) = 2 :=
  ⟨by decide,
   by
    have h := (C3_amended_counts.1 (constHost "NameOne") [] "b0" "kw3" ["id1", "id2"]
      ⟨[Outcome.ok 0 (some "id1"), Outcome.err 1 "Failed to complete todo"], "b0", 2, 1, 1⟩
      (by decide) (by decide) (by decide) (by decide) (by decide) (by decide)).1
    exact h⟩

/-- Folding a literal prefix through an append chain. -/
theorem msg_fold (a d big : String) (hf : a ++ d = big) (x : String) :
    a ++ (d ++ x) = big ++ x := by
  rw [← String.append_assoc, hf]

/-- C1 counterexample: with a failing executor, `create_todo_bulk` returns
the bare decorator string — not a batch-result object — and the per-item
fallback is never invoked (the host trace shows only the ensure check and
the one failed batch execution). -/
theorem C1_counterexample :
    (create_todo_bulk failHost emptyShelve "b0" "k" (some [itemTitled "A"])).val
      = BulkReturn.str "❌ Failed to create todo bulk: Batch creation failed: boom"
    ∧ (create_todo_bulk failHost emptyShelve "b0" "k" (some [itemTitled "A"])).val.isBatch
        = false
    ∧ (create_todo_bulk failHost emptyShelve "b0" "k" (some [itemTitled "A"])).trace.length
        = 2 := by
  refine ⟨by decide, by decide, by decide⟩

/-- C1 amended: when the primary native-batch execution fails, the raised
`ThingsError` is caught by the `_handle_tool_errors` decorator and the call
returns the bare string `"❌ Failed to <operation>: <reason>"`; the cache is
left unchanged and no further host call is made — in particular the
`_fallback_*` helpers are not invoked.  (The last clause shows the same for
`create_todo_bulk` when the host cannot be launched.) -/
theorem C1_amended_decorator_string :
    (∀ (h : Host) (gc : GenericCache) (bid key : String) (l : List String),
      dictGet gc key = none → validate_batch (some l) key = none →
      firstEmptyIdError 0 l = none → h.ensureOk = true →
      (h.run (build_batch_completion_script l)).success = false →
      complete_todo_bulk h gc bid key (some l)
        = ⟨.str ("❌ Failed to complete todo bulk: Batch completion failed: "
              ++ optStr (h.run (build_batch_completion_script l)).error),
            gc, [.ensure, .exec (build_batch_completion_script l)]⟩) ∧
    (∀ (h : Host) (gc : GenericCache) (bid key : String) (l : List String),
      dictGet gc key = none → validate_batch (some l) key = none →
      firstEmptyIdError 0 l = none → h.ensureOk = true →
      (h.run (build_batch_cancellation_script l)).success = false →
      cancel_todo_bulk h gc bid key (some l)
        = ⟨.str ("❌ Failed to cancel todo bulk: Batch cancel failed: "
              ++ optStr (h.run (build_batch_cancellation_script l)).error),
            gc, [.ensure, .exec (build_batch_cancellation_script l)]⟩) ∧
    (∀ (h : Host) (gc : GenericCache) (bid key : String) (l : List String),
      dictGet gc key = none → validate_batch (some l) key = none →
      firstEmptyIdError 0 l = none → h.ensureOk = true →
      (h.run (build_batch_delete_script l)).success = false →
      delete_todo_bulk h gc bid key (some l)
        = ⟨.str ("❌ Failed to delete todo bulk: Batch delete failed: "
              ++ optStr (h.run (build_batch_delete_script l)).error),
            gc, [.ensure, .exec (build_batch_delete_script l)]⟩) ∧
    (∀ (h : Host) (gc : GenericCache) (bid key : String) (l : List MoveItem)
        (processed : List MoveProcessed),
      dictGet gc key = none → validate_batch (some l) key = none →
      moveProcessItems 0 l = .ok processed → h.ensureOk = true →
      (h.run (build_batch_move_script processed)).success = false →
      move_todo_bulk h gc bid key (some l)
        = ⟨.str ("❌ Failed to move todo bulk: Batch move failed: "
              ++ optStr (h.run (build_batch_move_script processed)).error),
            gc, [.ensure, .exec (build_batch_move_script processed)]⟩) ∧
    (∀ (h : Host) (gc : GenericCache) (bid key : String) (l : List UpdateItem)
        (processed : List UpdateProcessed),
      dictGet gc key = none → validate_batch (some l) key = none →
      updateProcessItems 0 l = .ok processed → h.ensureOk = true →
      (h.run (build_batch_update_script processed)).success = false →
      update_todo_bulk h gc bid key (some l)
        = ⟨.str ("❌ Failed to update todo bulk: Batch update failed: "
              ++ optStr (h.run (build_batch_update_script processed)).error),
            gc, [.ensure, .exec (build_batch_update_script processed)]⟩) ∧
    (∀ (h : Host) (c : ShelveCache) (bid key : String) (l processed : List CreateItem),
      ShelveCache.get c key = none → validate_batch (some l) key = none →
      createProcessItems 0 l = .ok processed → h.ensureOk = true →
      (h.run (build_batch_todo_creation_script processed)).success = false →
      create_todo_bulk h c bid key (some l)
        = ⟨.str ("❌ Failed to create todo bulk: Batch creation failed: "
              ++ optStr (h.run (build_batch_todo_creation_script processed)).error),
            c, [.ensure, .exec (build_batch_todo_creation_script processed)]⟩) ∧
    (∀ (h : Host) (c : ShelveCache) (bid key : String) (l processed : List CreateItem),
      ShelveCache.get c key = none → validate_batch (some l) key = none →
      createProcessItems 0 l = .ok processed → h.ensureOk = false →
      create_todo_bulk h c bid key (some l)
        = ⟨.str ("❌ Failed to create todo bulk: Failed to launch Things 3: "
              ++ optStr h.ensureErr), c, [.ensure]⟩) := by
  refine ⟨?_, ?_, ?_, ?_, ?_, ?_, ?_⟩
  · intro h gc bid key l hget hval hfe hens hrs
    simp only [complete_todo_bulk]
    rw [idList_inner_execFail _ _ _ h gc bid key l hget hval hfe hens hrs]
    simp only [handle_tool_errors]
    rw [msg_fold ("❌ Failed to " ++ "complete todo bulk" ++ ": ")
      ("Batch completion failed" ++ ": ") "❌ Failed to complete todo bulk: Batch completion failed: "
      (by rfl)]
  · intro h gc bid key l hget hval hfe hens hrs
    simp only [cancel_todo_bulk]
    rw [idList_inner_execFail _ _ _ h gc bid key l hget hval hfe hens hrs]
    simp only [handle_tool_errors]
    rw [msg_fold ("❌ Failed to " ++ "cancel todo bulk" ++ ": ")
      ("Batch cancel failed" ++ ": ") "❌ Failed to cancel todo bulk: Batch cancel failed: " (by rfl)]
  · intro h gc bid key l hget hval hfe hens hrs
    simp only [delete_todo_bulk]
    rw [idList_inner_execFail _ _ _ h gc bid key l hget hval hfe hens hrs]
    simp only [handle_tool_errors]
    rw [msg_fold ("❌ Failed to " ++ "delete todo bulk" ++ ": ")
      ("Batch delete failed" ++ ": ") "❌ Failed to delete todo bulk: Batch delete failed: " (by rfl)]
  · intro h gc bid key l processed hget hval hproc hens hrs
    simp only [move_todo_bulk]
    rw [move_inner_execFail h gc bid key l processed hget hval hproc hens hrs]
    simp only [handle_tool_errors]
    rw [msg_fold ("❌ Failed to " ++ "move todo bulk" ++ ": ")
      "Batch move failed: " "❌ Failed to move todo bulk: Batch move failed: " (by rfl)]
  · intro h gc bid key l processed hget hval hproc hens hrs
    simp only [update_todo_bulk]
    rw [update_inner_execFail h gc bid key l processed hget hval hproc hens hrs]
    simp only [handle_tool_errors]
    rw [msg_fold ("❌ Failed to " ++ "update todo bulk" ++ ": ")
      "Batch update failed: " "❌ Failed to update todo bulk: Batch update failed: " (by rfl)]
  · intro h c bid key l processed hget hval hproc hens hrs
    simp only [create_todo_bulk]
    rw [create_inner_execFail h c bid key l processed hget hval hproc hens hrs]
    simp only [handle_tool_errors]
    rw [msg_fold ("❌ Failed to " ++ "create todo bulk" ++ ": ")
      "Batch creation failed: " "❌ Failed to create todo bulk: Batch creation failed: "
      (by rfl)]
  · intro h c bid key l processed hget hval hproc hens
    simp only [create_todo_bulk]
    rw [create_inner_ensureFail h c bid key l processed hget hval hproc hens]
    simp only [handle_tool_errors]
    rw [msg_fold ("❌ Failed to " ++ "create todo bulk" ++ ": ")
      "Failed to launch Things 3: " "❌ Failed to create todo bulk: Failed to launch Things 3: "
      (by rfl)]

/-- Witness for `C1_amended_decorator_string` at the concrete failing host. -/
theorem C1_amended_decorator_string_witness :
    (failHost.run (build_batch_todo_creation_script [itemTitled "A"])).success = false
    ∧ create_todo_bulk failHost emptyShelve "b0" "kc1" (some [itemTitled "A"])
        = ⟨.str ("❌ Failed to create todo bulk: Batch creation failed: "
              ++ optStr (failHost.run (build_batch_todo_creation_script [itemTitled "A"])).error),
            emptyShelve, [.ensure, .exec (build_batch_todo_creation_script [itemTitled "A"])]⟩ :=
  ⟨by decide,
   (C1_amended_decorator_string.2.2.2.2.2.1 failHost emptyShelve "b0" "kc1"
      [itemTitled "A"] [itemTitled "A"] (by decide) (by decide) (by decide) (by decide)
      (by decide))⟩

/-- C4: idempotent replay.  For every bulk operation family, if a call
returned a batch result, a second call with the same idempotency key and
item list (under any host whatsoever) returns exactly the stored result,
leaves the cache unchanged and performs no host interaction. -/
theorem C4_idempotent_replay :
    (∀ (h1 h2 : Host) (gc : GenericCache) (bid1 bid2 key : String)
        (items : Option (List String)) (b : BatchResult),
      (complete_todo_bulk h1 gc bid1 key items).val = .batch b →
      complete_todo_bulk h2 (complete_todo_bulk h1 gc bid1 key items).cache bid2 key items
        = ⟨.batch b, (complete_todo_bulk h1 gc bid1 key items).cache, []⟩) ∧
    (∀ (h1 h2 : Host) (gc : GenericCache) (bid1 bid2 key : String)
        (items : Option (List String)) (b : BatchResult),
      (cancel_todo_bulk h1 gc bid1 key items).val = .batch b →
      cancel_todo_bulk h2 (cancel_todo_bulk h1 gc bid1 key items).cache bid2 key items
        = ⟨.batch b, (cancel_todo_bulk h1 gc bid1 key items).cache, []⟩) ∧
    (∀ (h1 h2 : Host) (gc : GenericCache) (bid1 bid2 key : String)
        (items : Option (List String)) (b : BatchResult),
      (delete_todo_bulk h1 gc bid1 key items).val = .batch b →
      delete_todo_bulk h2 (delete_todo_bulk h1 gc bid1 key items).cache bid2 key items
        = ⟨.batch b, (delete_todo_bulk h1 gc bid1 key items).cache, []⟩) ∧
    (∀ (h1 h2 : Host) (gc : GenericCache) (bid1 bid2 key : String)
        (items : Option (List MoveItem)) (b : BatchResult),
      (move_todo_bulk h1 gc bid1 key items).val = .batch b →
      move_todo_bulk h2 (move_todo_bulk h1 gc bid1 key items).cache bid2 key items
        = ⟨.batch b, (move_todo_bulk h1 gc bid1 key items).cache, []⟩) ∧
    (∀ (h1 h2 : Host) (gc : GenericCache) (bid1 bid2 key : String)
        (items : Option (List UpdateItem)) (b : BatchResult),
      (update_todo_bulk h1 gc bid1 key items).val = .batch b →
      update_todo_bulk h2 (update_todo_bulk h1 gc bid1 key items).cache bid2 key items
        = ⟨.batch b, (update_todo_bulk h1 gc bid1 key items).cache, []⟩) ∧
    (∀ (h1 h2 : Host) (c : ShelveCache) (bid1 bid2 key : String)
        (items : Option (List CreateItem)) (b : BatchResult),
      (create_todo_bulk h1 c bid1 key items).val = .batch b →
      create_todo_bulk h2 (create_todo_bulk h1 c bid1 key items).cache bid2 key items
        = ⟨.batch b, (create_todo_bulk h1 c bid1 key items).cache, []⟩) := by
  refine ⟨?_, ?_, ?_, ?_, ?_, ?_⟩
  · intro h1 h2 gc bid1 bid2 key items b hb
    have hres : (idListBulkInner build_batch_completion_script "Failed to complete todo"
        "Batch completion failed" h1 gc bid1 key items).res = .ok (.batch b) :=
      handle_tool_errors_batch_inv _ _ _ hb
    have hstored := idList_inner_batch_stored _ _ _ h1 gc bid1 key items b hres
    simp only [complete_todo_bulk]
    rw [idList_inner_cacheHit _ _ _ h2 _ bid2 key items b hstored]
    simp [handle_tool_errors]
  · intro h1 h2 gc bid1 bid2 key items b hb
    have hres : (idListBulkInner build_batch_cancellation_script "Failed to cancel todo"
        "Batch cancel failed" h1 gc bid1 key items).res = .ok (.batch b) :=
      handle_tool_errors_batch_inv _ _ _ hb
    have hstored := idList_inner_batch_stored _ _ _ h1 gc bid1 key items b hres
    simp only [cancel_todo_bulk]
    rw [idList_inner_cacheHit _ _ _ h2 _ bid2 key items b hstored]
    simp [handle_tool_errors]
  · intro h1 h2 gc bid1 bid2 key items b hb
    have hres : (idListBulkInner build_batch_delete_script "Failed to delete todo"
        "Batch delete failed" h1 gc bid1 key items).res = .ok (.batch b) :=
      handle_tool_errors_batch_inv _ _ _ hb
    have hstored := idList_inner_batch_stored _ _ _ h1 gc bid1 key items b hres
    simp only [delete_todo_bulk]
    rw [idList_inner_cacheHit _ _ _ h2 _ bid2 key items b hstored]
    simp [handle_tool_errors]
  · intro h1 h2 gc bid1 bid2 key items b hb
    have hres : (move_todo_bulk_inner h1 gc bid1 key items).res = .ok (.batch b) :=
      handle_tool_errors_batch_inv _ _ _ hb
    have hstored := move_inner_batch_stored h1 gc bid1 key items b hres
    simp only [move_todo_bulk]
    rw [move_inner_cacheHit h2 _ bid2 key items b hstored]
    simp [handle_tool_errors]
  · intro h1 h2 gc bid1 bid2 key items b hb
    have hres : (update_todo_bulk_inner h1 gc bid1 key items).res = .ok (.batch b) :=
      handle_tool_errors_batch_inv _ _ _ hb
    have hstored := update_inner_batch_stored h1 gc bid1 key items b hres
    simp only [update_todo_bulk]
    rw [update_inner_cacheHit h2 _ bid2 key items b hstored]
    simp [handle_tool_errors]
  · intro h1 h2 c bid1 bid2 key items b hb
    have hres : (create_todo_bulk_inner h1 c bid1 key items).res = .ok (.batch b) :=
      handle_tool_errors_batch_inv _ _ _ hb
    have hstored := create_inner_batch_stored h1 c bid1 key items b hres
    cases hget2 : ShelveCache.get (create_todo_bulk_inner h1 c bid1 key items).cache key with
    | none => rw [hget2] at hstored; simp at hstored
    | some entry =>
      rw [hget2] at hstored
      simp at hstored
      have hbe : entry.batch = b := hstored
      simp only [create_todo_bulk]
      rw [create_inner_cacheHit h2 _ bid2 key items entry hget2, hbe]
      simp [handle_tool_errors]

/-- Witness for `C4_idempotent_replay`: a concrete first call through the
primary path, then a replay against a failing host. -/
theorem C4_idempotent_replay_witness :
    ((complete_todo_bulk (constHost "N1|N2") [] "b1" "kr" (some ["id1", "id2"])).val
      = BulkReturn.batch ⟨[Outcome.ok 0 (some "id1"), Outcome.ok 1 (some "id2")], "b1", 2, 2, 0⟩)
    ∧ complete_todo_bulk failHost
        (complete_todo_bulk (constHost "N1|N2") [] "b1" "kr" (some ["id1", "id2"])).cache
        "b2" "kr" (some ["id1", "id2"])
      = ⟨.batch ⟨[Outcome.ok 0 (some "id1"), Outcome.ok 1 (some "id2")], "b1", 2, 2, 0⟩,
          (complete_todo_bulk (constHost "N1|N2") [] "b1" "kr" (some ["id1", "id2"])).cache, []⟩ :=
  ⟨by decide,
   C4_idempotent_replay.1 (constHost "N1|N2") failHost [] "b1" "b2" "kr"
     (some ["id1", "id2"]) _ (by decide)⟩

/-- C5 (spec-modelled `ShelveCache`): durable-cache persistence.  After a
`create_todo_bulk` call returns a batch result through a cache opened on
file `f`, closing that cache and reopening a fresh instance on the same
backing file makes a repeat call return the stored result with no host
interaction, under any second host. -/
theorem C5_cache_persistence (h1 h2 : Host) (f : ShelveStore) (bid1 bid2 key : String)
    (items : Option (List CreateItem)) (b : BatchResult)
    (hb : (create_todo_bulk h1 (ShelveCache.openStore f) bid1 key items).val = .batch b) :
    create_todo_bulk h2
        (ShelveCache.openStore (ShelveCache.close
          (create_todo_bulk h1 (ShelveCache.openStore f) bid1 key items).cache))
        bid2 key items
      = ⟨.batch b,
          (create_todo_bulk h1 (ShelveCache.openStore f) bid1 key items).cache, []⟩ := by
  have hres : (create_todo_bulk_inner h1 (ShelveCache.openStore f) bid1 key items).res
      = .ok (.batch b) := handle_tool_errors_batch_inv _ _ _ hb
  have hstored := create_inner_batch_stored h1 (ShelveCache.openStore f) bid1 key items b hres
  cases hget2 : ShelveCache.get
      (create_todo_bulk_inner h1 (ShelveCache.openStore f) bid1 key items).cache key with
  | none => rw [hget2] at hstored; simp at hstored
  | some entry =>
    rw [hget2] at hstored
    simp at hstored
    have hbe : entry.batch = b := hstored
    simp only [create_todo_bulk]
    have hre : ShelveCache.openStore (ShelveCache.close
        (create_todo_bulk_inner h1 (ShelveCache.openStore f) bid1 key items).cache)
        = (create_todo_bulk_inner h1 (ShelveCache.openStore f) bid1 key items).cache := rfl
    rw [hre, create_inner_cacheHit h2 _ bid2 key items entry hget2, hbe]
    simp [handle_tool_errors]

/-- Witness for `C5_cache_persistence`: the persistent-cache test scenario
(`first == second` across close/reopen, no further execution). -/
theorem C5_cache_persistence_witness :
    ((create_todo_bulk (constHost "A1,B2") (ShelveCache.openStore ⟨[]⟩) "b1" "kp"
        (some [itemTitled "A", itemTitled "B"])).val
      = BulkReturn.batch ⟨[Outcome.ok 0 (some "A1"), Outcome.ok 1 (some "B2")], "b1", 2, 2, 0⟩)
    ∧ create_todo_bulk failHost
        (ShelveCache.openStore (ShelveCache.close
          (create_todo_bulk (constHost "A1,B2") (ShelveCache.openStore ⟨[]⟩) "b1" "kp"
            (some [itemTitled "A", itemTitled "B"])).cache))
        "b2" "kp" (some [itemTitled "A", itemTitled "B"])
      = ⟨.batch ⟨[Outcome.ok 0 (some "A1"), Outcome.ok 1 (some "B2")], "b1", 2, 2, 0⟩,
          (create_todo_bulk (constHost "A1,B2") (ShelveCache.openStore ⟨[]⟩) "b1" "kp"
            (some [itemTitled "A", itemTitled "B"])).cache, []⟩ :=
  ⟨by decide,
   C5_cache_persistence (constHost "A1,B2") failHost ⟨[]⟩ "b1" "b2" "kp"
     (some [itemTitled "A", itemTitled "B"]) _ (by decide)⟩

/-- C9: the idempotency-cache lookup precedes validation.  A stored key is
returned as-is — with no host interaction and no cache change — for every
bulk operation, whatever the supplied items (even a non-list or an empty
list); and conversely a validation-error return implies the key was absent. -/
theorem C9_cache_precedes_validation :
    (∀ (h : Host) (gc : GenericCache) (bid key : String) (items : Option (List String))
        (b : BatchResult), dictGet gc key = some b →
      complete_todo_bulk h gc bid key items = ⟨.batch b, gc, []⟩) ∧
    (∀ (h : Host) (gc : GenericCache) (bid key : String) (items : Option (List String))
        (b : BatchResult), dictGet gc key = some b →
      cancel_todo_bulk h gc bid key items = ⟨.batch b, gc, []⟩) ∧
    (∀ (h : Host) (gc : GenericCache) (bid key : String) (items : Option (List String))
        (b : BatchResult), dictGet gc key = some b →
      delete_todo_bulk h gc bid key items = ⟨.batch b, gc, []⟩) ∧
    (∀ (h : Host) (gc : GenericCache) (bid key : String) (items : Option (List MoveItem))
        (b : BatchResult), dictGet gc key = some b →
      move_todo_bulk h gc bid key items = ⟨.batch b, gc, []⟩) ∧
    (∀ (h : Host) (gc : GenericCache) (bid key : String) (items : Option (List UpdateItem))
        (b : BatchResult), dictGet gc key = some b →
      update_todo_bulk h gc bid key items = ⟨.batch b, gc, []⟩) ∧
    (∀ (h : Host) (c : ShelveCache) (bid key : String) (items : Option (List CreateItem))
        (entry : CacheEntry), ShelveCache.get c key = some entry →
      create_todo_bulk h c bid key items = ⟨.batch entry.batch, c, []⟩) ∧
    (∀ (h : Host) (gc : GenericCache) (bid key : String) (items : Option (List String))
        (m : String), (complete_todo_bulk h gc bid key items).val = .errorDict m →
      dictGet gc key = none) ∧
    (∀ (h : Host) (gc : GenericCache) (bid key : String) (items : Option (List String))
        (m : String), (cancel_todo_bulk h gc bid key items).val = .errorDict m →
      dictGet gc key = none) ∧
    (∀ (h : Host) (gc : GenericCache) (bid key : String) (items : Option (List String))
        (m : String), (delete_todo_bulk h gc bid key items).val = .errorDict m →
      dictGet gc key = none) ∧
    (∀ (h : Host) (gc : GenericCache) (bid key : String) (items : Option (List MoveItem))
        (m : String), (move_todo_bulk h gc bid key items).val = .errorDict m →
      dictGet gc key = none) ∧
    (∀ (h : Host) (gc : GenericCache) (bid key : String) (items : Option (List UpdateItem))
        (m : String), (update_todo_bulk h gc bid key items).val = .errorDict m →
      dictGet gc key = none) ∧
    (∀ (h : Host) (c : ShelveCache) (bid key : String) (items : Option (List CreateItem))
        (m : String), (create_todo_bulk h c bid key items).val = .errorDict m →
      ShelveCache.get c key = none) := by
  refine ⟨?_, ?_, ?_, ?_, ?_, ?_, ?_, ?_, ?_, ?_, ?_, ?_⟩
  · intro h gc bid key items b hget
    simp only [complete_todo_bulk]
    rw [idList_inner_cacheHit _ _ _ h gc bid key items b hget]
    simp [handle_tool_errors]
  · intro h gc bid key items b hget
    simp only [cancel_todo_bulk]
    rw [idList_inner_cacheHit _ _ _ h gc bid key items b hget]
    simp [handle_tool_errors]
  · intro h gc bid key items b hget
    simp only [delete_todo_bulk]
    rw [idList_inner_cacheHit _ _ _ h gc bid key items b hget]
    simp [handle_tool_errors]
  · intro h gc bid key items b hget
    simp only [move_todo_bulk]
    rw [move_inner_cacheHit h gc bid key items b hget]
    simp [handle_tool_errors]
  · intro h gc bid key items b hget
    simp only [update_todo_bulk]
    rw [update_inner_cacheHit h gc bid key items b hget]
    simp [handle_tool_errors]
  · intro h c bid key items entry hget
    simp only [create_todo_bulk]
    rw [create_inner_cacheHit h c bid key items entry hget]
    simp [handle_tool_errors]
  · intro h gc bid key items m hm
    exact idList_inner_error_miss _ _ _ h gc bid key items m
      (handle_tool_errors_error_inv _ _ _ hm)
  · intro h gc bid key items m hm
    exact idList_inner_error_miss _ _ _ h gc bid key items m
      (handle_tool_errors_error_inv _ _ _ hm)
  · intro h gc bid key items m hm
    exact idList_inner_error_miss _ _ _ h gc bid key items m
      (handle_tool_errors_error_inv _ _ _ hm)
  · intro h gc bid key items m hm
    exact move_inner_error_miss h gc bid key items m (handle_tool_errors_error_inv _ _ _ hm)
  · intro h gc bid key items m hm
    exact update_inner_error_miss h gc bid key items m (handle_tool_errors_error_inv _ _ _ hm)
  · intro h c bid key items m hm
    exact create_inner_error_miss h c bid key items m (handle_tool_errors_error_inv _ _ _ hm)

/-- Witness for `C9_cache_precedes_validation`: a stored key is replayed even
when the supplied items are not a list. -/
theorem C9_cache_precedes_validation_witness :
    (dictGet [("kv", (⟨[], "old", 0, 0, 0⟩ : BatchResult))] "kv"
        = some ⟨[], "old", 0, 0, 0⟩)
    ∧ complete_todo_bulk failHost [("kv", ⟨[], "old", 0, 0, 0⟩)] "b9" "kv" none
        = ⟨.batch ⟨[], "old", 0, 0, 0⟩, [("kv", ⟨[], "old", 0, 0, 0⟩)], []⟩ :=
  ⟨by decide,
   C9_cache_precedes_validation.1 failHost [("kv", ⟨[], "old", 0, 0, 0⟩)] "b9" "kv" none _
     (by decide)⟩

/-- C8: frame property of the secondary per-item steps.  For
`create_todo_bulk` and `update_todo_bulk`, two hosts that agree on the
`ensure_running` outcome and on the response to the primary batch script
produce identical calls — value, cache and host trace — however the
responses to scheduling, move-to-Someday and tag-addition scripts differ.
In particular a failing secondary step never flips a per-item outcome and
never fails the batch. -/
theorem C8_secondary_steps_frame :
    (∀ (h1 h2 : Host) (c : ShelveCache) (bid key : String) (l processed : List CreateItem),
      h1.ensureOk = h2.ensureOk → h1.ensureErr = h2.ensureErr →
      createProcessItems 0 l = .ok processed →
      h1.run (build_batch_todo_creation_script processed)
        = h2.run (build_batch_todo_creation_script processed) →
      create_todo_bulk h1 c bid key (some l) = create_todo_bulk h2 c bid key (some l)) ∧
    (∀ (h1 h2 : Host) (gc : GenericCache) (bid key : String) (l : List UpdateItem)
        (processed : List UpdateProcessed),
      h1.ensureOk = h2.ensureOk → h1.ensureErr = h2.ensureErr →
      updateProcessItems 0 l = .ok processed →
      h1.run (build_batch_update_script processed)
        = h2.run (build_batch_update_script processed) →
      update_todo_bulk h1 gc bid key (some l) = update_todo_bulk h2 gc bid key (some l)) := by
  constructor
  · intro h1 h2 c bid key l processed hok herr hproc hrun
    simp only [create_todo_bulk, create_todo_bulk_inner]
    cases hget : ShelveCache.get c key with
    | some entry => simp [hget]
    | none =>
      simp only [hget]
      cases hval : validate_batch (some l) key with
      | some m => simp [hval]
      | none =>
        simp only [hval, Option.getD, hproc]
        rw [hok, herr, hrun]
  · intro h1 h2 gc bid key l processed hok herr hproc hrun
    simp only [update_todo_bulk, update_todo_bulk_inner]
    cases hget : dictGet gc key with
    | some b0 => simp [hget]
    | none =>
      simp only [hget]
      cases hval : validate_batch (some l) key with
      | some m => simp [hval]
      | none =>
        simp only [hval, Option.getD, hproc]
        rw [hok, herr, hrun]

set_option maxRecDepth 4096 in
/-- Witness for `C8_secondary_steps_frame`: two hosts agreeing on the primary
script but disagreeing on the tag-addition script yield the same call. -/
theorem C8_secondary_steps_frame_witness :
    (w8host1.run (build_batch_todo_creation_script [itemTitled "A"])
        = w8host2.run (build_batch_todo_creation_script [itemTitled "A"]))
    ∧ (w8host1.run (build_tag_addition_script "A1" "t")
        ≠ w8host2.run (build_tag_addition_script "A1" "t"))
    ∧ create_todo_bulk w8host1 emptyShelve "b8" "k8" (some [itemTitled "A"])
        = create_todo_bulk w8host2 emptyShelve "b8" "k8" (some [itemTitled "A"]) :=
  ⟨by decide, by decide,
   C8_secondary_steps_frame.1 w8host1 w8host2 emptyShelve "b8" "k8"
     [itemTitled "A"] [itemTitled "A"] (by decide) (by decide) (by decide) (by decide)⟩

/-- C10: exact per-item outcome layout.  Every outcome in any batch result a
bulk operation returns — and in every fallback function's results — is
either the success shape `{"index": i, "id": <string or null>}` or the
failure shape `{"index": i, "error": {"msg": <string>}}`, the failure
message being nested under the single `msg` key, never a bare string. -/
theorem C10_outcome_shape :
    (∀ (h : Host) (gc : GenericCache) (bid key : String) (items : Option (List String))
        (b : BatchResult), (complete_todo_bulk h gc bid key items).val = .batch b →
      ∀ o ∈ b.results, (o.isErr = true → failureShape o.toJson)
        ∧ (o.isErr = false → successShape o.toJson)) ∧
    (∀ (h : Host) (gc : GenericCache) (bid key : String) (items : Option (List String))
        (b : BatchResult), (cancel_todo_bulk h gc bid key items).val = .batch b →
      ∀ o ∈ b.results, (o.isErr = true → failureShape o.toJson)
        ∧ (o.isErr = false → successShape o.toJson)) ∧
    (∀ (h : Host) (gc : GenericCache) (bid key : String) (items : Option (List String))
        (b : BatchResult), (delete_todo_bulk h gc bid key items).val = .batch b →
      ∀ o ∈ b.results, (o.isErr = true → failureShape o.toJson)
        ∧ (o.isErr = false → successShape o.toJson)) ∧
    (∀ (h : Host) (gc : GenericCache) (bid key : String) (items : Option (List MoveItem))
        (b : BatchResult), (move_todo_bulk h gc bid key items).val = .batch b →
      ∀ o ∈ b.results, (o.isErr = true → failureShape o.toJson)
        ∧ (o.isErr = false → successShape o.toJson)) ∧
    (∀ (h : Host) (gc : GenericCache) (bid key : String) (items : Option (List UpdateItem))
        (b : BatchResult), (update_todo_bulk h gc bid key items).val = .batch b →
      ∀ o ∈ b.results, (o.isErr = true → failureShape o.toJson)
        ∧ (o.isErr = false → successShape o.toJson)) ∧
    (∀ (h : Host) (c : ShelveCache) (bid key : String) (items : Option (List CreateItem))
        (b : BatchResult), (create_todo_bulk h c bid key items).val = .batch b →
      ∀ o ∈ b.results, (o.isErr = true → failureShape o.toJson)
        ∧ (o.isErr = false → successShape o.toJson)) ∧
    (∀ (step : Nat → Except String String) (gc : GenericCache) (bid key : String)
        (items : List String),
      ∀ o ∈ (fallback_complete_todo_bulk step gc bid key items).1.results,
        (o.isErr = true → failureShape o.toJson) ∧ (o.isErr = false → successShape o.toJson)) ∧
    (∀ (step : Nat → Except String String) (gc : GenericCache) (bid key : String)
        (items : List String),
      ∀ o ∈ (fallback_cancel_todo_bulk step gc bid key items).1.results,
        (o.isErr = true → failureShape o.toJson) ∧ (o.isErr = false → successShape o.toJson)) ∧
    (∀ (step : Nat → Except String String) (gc : GenericCache) (bid key : String)
        (items : List String),
      ∀ o ∈ (fallback_delete_todo_bulk step gc bid key items).1.results,
        (o.isErr = true → failureShape o.toJson) ∧ (o.isErr = false → successShape o.toJson)) ∧
    (∀ (step : Nat → Except String String) (gc : GenericCache) (bid key : String)
        (items : List MoveItem),
      ∀ o ∈ (fallback_move_todo_bulk step gc bid key items).1.results,
        (o.isErr = true → failureShape o.toJson) ∧ (o.isErr = false → successShape o.toJson)) ∧
    (∀ (step : Nat → Except String String) (gc : GenericCache) (bid key : String)
        (items : List UpdateItem),
      ∀ o ∈ (fallback_update_todo_bulk step gc bid key items).1.results,
        (o.isErr = true → failureShape o.toJson) ∧ (o.isErr = false → successShape o.toJson)) ∧
    (∀ (step : Nat → Except String String) (c : ShelveCache) (bid key : String)
        (items : List CreateItem),
      ∀ o ∈ (fallback_create_todo_bulk step c bid key items).1.results,
        (o.isErr = true → failureShape o.toJson) ∧ (o.isErr = false → successShape o.toJson)) := by
  have shape : ∀ o : Outcome,
      (o.isErr = true → failureShape o.toJson) ∧ (o.isErr = false → successShape o.toJson) := by
    intro o
    cases o with
    | ok i id =>
      refine ⟨fun hco => by simp [Outcome.isErr] at hco, fun _ => ?_⟩
      cases id with
      | none => exact ⟨i, Json.null, rfl, Or.inl rfl⟩
      | some s => exact ⟨i, Json.str s, rfl, Or.inr ⟨s, rfl⟩⟩
    | err i m =>
      exact ⟨fun _ => ⟨i, m, rfl⟩, fun hco => by simp [Outcome.isErr] at hco⟩
  exact ⟨fun _ _ _ _ _ _ _ o _ => shape o, fun _ _ _ _ _ _ _ o _ => shape o,
    fun _ _ _ _ _ _ _ o _ => shape o, fun _ _ _ _ _ _ _ o _ => shape o,
    fun _ _ _ _ _ _ _ o _ => shape o, fun _ _ _ _ _ _ _ o _ => shape o,
    fun _ _ _ _ _ o _ => shape o, fun _ _ _ _ _ o _ => shape o,
    fun _ _ _ _ _ o _ => shape o, fun _ _ _ _ _ o _ => shape o,
    fun _ _ _ _ _ o _ => shape o, fun _ _ _ _ _ o _ => shape o⟩

/-- Witness for `C10_outcome_shape` on the two-id completion scenario, whose
batch has one success and one failure outcome. -/
theorem C10_outcome_shape_witness :
    ((complete_todo_bulk (constHost "NameOne") [] "b0" "kt" (some ["id1", "id2"])).val
        = BulkReturn.batch ⟨[Outcome.ok 0 (some "id1"), Outcome.err 1 "Failed to complete todo"],
            "b0", 2, 1, 1⟩)
    ∧ failureShape (Outcome.err 1 "Failed to complete todo").toJson
    ∧ successShape (Outcome.ok 0 (some "id1")).toJson :=
  ⟨by decide,
   (C10_outcome_shape.1 (constHost "NameOne") [] "b0" "kt" (some ["id1", "id2"])
      ⟨[Outcome.ok 0 (some "id1"), Outcome.err 1 "Failed to complete todo"], "b0", 2, 1, 1⟩
      (by decide) (Outcome.err 1 "Failed to complete todo") (by decide)).1 (by decide),
   (C10_outcome_shape.1 (constHost "NameOne") [] "b0" "kt" (some ["id1", "id2"])
      ⟨[Outcome.ok 0 (some "id1"), Outcome.err 1 "Failed to complete todo"], "b0", 2, 1, 1⟩
      (by decide) (Outcome.ok 0 (some "id1")) (by decide)).2 (by decide)⟩

/-- C6: validation boundary.  On a cache miss, a non-list, empty or oversized
`items` value or an empty idempotency key makes every bulk operation return a
dict carrying only the corresponding literal error message, with no host
interaction and no cache change; a missing per-item required field (`title`
for create, `todo_id` for the others) likewise yields an indexed
`"Item <i>: ..."` error before any script executes.  The final clauses pin
the literal message texts. -/
theorem C6_validation_boundary :
    (∀ (h : Host) (gc : GenericCache) (bid key : String), dictGet gc key = none →
      complete_todo_bulk h gc bid key none
        = ⟨.errorDict "items must be list of todo IDs", gc, []⟩) ∧
    (∀ (h : Host) (gc : GenericCache) (bid key : String) (l : List String) (m : String),
      dictGet gc key = none → validate_batch (some l) key = some m →
      complete_todo_bulk h gc bid key (some l) = ⟨.errorDict m, gc, []⟩) ∧
    (∀ (h : Host) (gc : GenericCache) (bid key : String) (l : List String) (m : String),
      dictGet gc key = none → validate_batch (some l) key = none →
      firstEmptyIdError 0 l = some m →
      complete_todo_bulk h gc bid key (some l) = ⟨.errorDict m, gc, []⟩) ∧
    (∀ (h : Host) (gc : GenericCache) (bid key : String), dictGet gc key = none →
      cancel_todo_bulk h gc bid key none
        = ⟨.errorDict "items must be list of todo IDs", gc, []⟩) ∧
    (∀ (h : Host) (gc : GenericCache) (bid key : String) (l : List String) (m : String),
      dictGet gc key = none → validate_batch (some l) key = some m →
      cancel_todo_bulk h gc bid key (some l) = ⟨.errorDict m, gc, []⟩) ∧
    (∀ (h : Host) (gc : GenericCache) (bid key : String) (l : List String) (m : String),
      dictGet gc key = none → validate_batch (some l) key = none →
      firstEmptyIdError 0 l = some m →
      cancel_todo_bulk h gc bid key (some l) = ⟨.errorDict m, gc, []⟩) ∧
    (∀ (h : Host) (gc : GenericCache) (bid key : String), dictGet gc key = none →
      delete_todo_bulk h gc bid key none
        = ⟨.errorDict "items must be list of todo IDs", gc, []⟩) ∧
    (∀ (h : Host) (gc : GenericCache) (bid key : String) (l : List String) (m : String),
      dictGet gc key = none → validate_batch (some l) key = some m →
      delete_todo_bulk h gc bid key (some l) = ⟨.errorDict m, gc, []⟩) ∧
    (∀ (h : Host) (gc : GenericCache) (bid key : String) (l : List String) (m : String),
      dictGet gc key = none → validate_batch (some l) key = none →
      firstEmptyIdError 0 l = some m →
      delete_todo_bulk h gc bid key (some l) = ⟨.errorDict m, gc, []⟩) ∧
    (∀ (h : Host) (gc : GenericCache) (bid key : String) (items : Option (List MoveItem))
        (m : String), dictGet gc key = none → validate_batch items key = some m →
      move_todo_bulk h gc bid key items = ⟨.errorDict m, gc, []⟩) ∧
    (∀ (h : Host) (gc : GenericCache) (bid key : String) (l : List MoveItem) (m : String),
      dictGet gc key = none → validate_batch (some l) key = none →
      moveProcessItems 0 l = .error m →
      move_todo_bulk h gc bid key (some l) = ⟨.errorDict m, gc, []⟩) ∧
    (∀ (h : Host) (gc : GenericCache) (bid key : String) (items : Option (List UpdateItem))
        (m : String), dictGet gc key = none → validate_batch items key = some m →
      update_todo_bulk h gc bid key items = ⟨.errorDict m, gc, []⟩) ∧
    (∀ (h : Host) (gc : GenericCache) (bid key : String) (l : List UpdateItem) (m : String),
      dictGet gc key = none → validate_batch (some l) key = none →
      updateProcessItems 0 l = .error m →
      update_todo_bulk h gc bid key (some l) = ⟨.errorDict m, gc, []⟩) ∧
    (∀ (h : Host) (c : ShelveCache) (bid key : String) (items : Option (List CreateItem))
        (m : String), ShelveCache.get c key = none → validate_batch items key = some m →
      create_todo_bulk h c bid key items = ⟨.errorDict m, c, []⟩) ∧
    (∀ (h : Host) (c : ShelveCache) (bid key : String) (l : List CreateItem) (m : String),
      ShelveCache.get c key = none → validate_batch (some l) key = none →
      createProcessItems 0 l = .error m →
      create_todo_bulk h c bid key (some l) = ⟨.errorDict m, c, []⟩) ∧
    (∀ (α : Type) (key : String),
      validate_batch (none : Option (List α)) key = some "`items` must be a list") ∧
    (∀ (α : Type) (key : String),
      validate_batch (some ([] : List α)) key = some "`items` list cannot be empty") ∧
    (∀ (α : Type) (l : List α) (key : String), 1000 < l.length →
      validate_batch (some l) key = some "Batch exceeds maximum of 1000 items") ∧
    (∀ (α : Type) (l : List α), 0 < l.length → l.length ≤ 1000 →
      validate_batch (some l) "" = some "`idempotency_key` is required") ∧
    (∀ (idx : Nat) (tid : String) (rest : List String), (pyStrip tid).data.isEmpty = true →
      firstEmptyIdError idx (tid :: rest)
        = some ("Item " ++ natToStr idx ++ ": todo_id is required and cannot be empty")) ∧
    (∀ (idx : Nat) (item : CreateItem) (rest : List CreateItem), truthy item.title = false →
      createProcessItems idx (item :: rest)
        = .error ("Item " ++ natToStr idx ++ ": title is required")) ∧
    (∀ (idx : Nat) (itm : MoveItem) (rest : List MoveItem), truthy itm.todo_id = false →
      moveProcessItems idx (itm :: rest)
        = .error ("Item " ++ natToStr idx ++ ": todo_id is required")) ∧
    (∀ (idx : Nat) (itm : UpdateItem) (rest : List UpdateItem), truthy itm.todo_id = false →
      updateProcessItems idx (itm :: rest)
        = .error ("Item " ++ natToStr idx ++ ": todo_id is required")) := by
  refine ⟨?_, ?_, ?_, ?_, ?_, ?_, ?_, ?_, ?_, ?_, ?_, ?_, ?_, ?_, ?_, ?_, ?_, ?_, ?_, ?_,
    ?_, ?_, ?_⟩
  · intro h gc bid key hget
    simp [complete_todo_bulk, idListBulkInner, hget, handle_tool_errors]
  · intro h gc bid key l m hget hval
    simp [complete_todo_bulk, idListBulkInner, hget, hval, handle_tool_errors]
  · intro h gc bid key l m hget hval hfe
    simp [complete_todo_bulk, idListBulkInner, hget, hval, hfe, handle_tool_errors]
  · intro h gc bid key hget
    simp [cancel_todo_bulk, idListBulkInner, hget, handle_tool_errors]
  · intro h gc bid key l m hget hval
    simp [cancel_todo_bulk, idListBulkInner, hget, hval, handle_tool_errors]
  · intro h gc bid key l m hget hval hfe
    simp [cancel_todo_bulk, idListBulkInner, hget, hval, hfe, handle_tool_errors]
  · intro h gc bid key hget
    simp [delete_todo_bulk, idListBulkInner, hget, handle_tool_errors]
  · intro h gc bid key l m hget hval
    simp [delete_todo_bulk, idListBulkInner, hget, hval, handle_tool_errors]
  · intro h gc bid key l m hget hval hfe
    simp [delete_todo_bulk, idListBulkInner, hget, hval, hfe, handle_tool_errors]
  · intro h gc bid key items m hget hval
    simp [move_todo_bulk, move_todo_bulk_inner, hget, hval, handle_tool_errors]
  · intro h gc bid key l m hget hval hpe
    simp [move_todo_bulk, move_todo_bulk_inner, hget, hval, hpe, handle_tool_errors]
  · intro h gc bid key items m hget hval
    simp [update_todo_bulk, update_todo_bulk_inner, hget, hval, handle_tool_errors]
  · intro h gc bid key l m hget hval hpe
    simp [update_todo_bulk, update_todo_bulk_inner, hget, hval, hpe, handle_tool_errors]
  · intro h c bid key items m hget hval
    simp [create_todo_bulk, create_todo_bulk_inner, hget, hval, handle_tool_errors]
  · intro h c bid key l m hget hval hpe
    simp [create_todo_bulk, create_todo_bulk_inner, hget, hval, hpe, handle_tool_errors]
  · intro α key
    simp [validate_batch]
  · intro α key
    simp [validate_batch]
  · intro α l key hgt
    have h0 : ¬ l.length = 0 := by omega
    simp [validate_batch, h0, hgt]
  · intro α l h0 h1000
    have hne : ¬ l.length = 0 := by omega
    have hle : ¬ l.length > 1000 := by omega
    simp [validate_batch, hne, hle]
  · intro idx tid rest hempty
    simp [firstEmptyIdError, hempty]
  · intro idx item rest ht
    simp [createProcessItems, ht]
  · intro idx itm rest ht
    simp [moveProcessItems, ht]
  · intro idx itm rest ht
    simp [updateProcessItems, ht]

/-- Witness for `C6_validation_boundary`: the spec's own boundary example
`create_bulk("", [])`. -/
theorem C6_validation_boundary_witness :
    (ShelveCache.get emptyShelve "" = none)
    ∧ validate_batch (some ([] : List CreateItem)) "" = some "`items` list cannot be empty"
    ∧ create_todo_bulk failHost emptyShelve "b6" "" (some [])
        = ⟨.errorDict "`items` list cannot be empty", emptyShelve, []⟩ :=
  ⟨by decide, by decide,
   C6_validation_boundary.2.2.2.2.2.2.2.2.2.2.2.2.2.1 failHost emptyShelve "b6" ""
     (some []) "`items` list cannot be empty" (by decide) (by decide)⟩

end Thingsbridge
